import Mathlib

/-!
Verification of the mutual_dissent debate pipeline: a shallow embedding of
the data model (`models.py`), the score parser (`scoring.py`), the prompt
templates (`prompts.py`), the orchestrator (`orchestrator.py`), the
OpenRouter provider (`providers/openrouter.py`, `client.py`), transcript
storage (`transcript.py`) and pricing (`pricing.py`), together with proofs
about them.  Stateful Python code is embedded as explicit state passing;
fallible code returns `Except`/`Option`; network calls are oracles passed
in as function arguments.  The provider router (`providers/router.py`) is
not part of the source tree; where its behavior matters it is modelled
from the spec (see the doc comments there).
-/

namespace MutualDissent

/-- ASCII whitespace recognized by Python's `\s` / `str.strip` for the
character set our strings use (space, tab, newline, carriage return,
vertical tab, form feed). -/
def pyIsSpace (c : Char) : Bool :=
  c = ' ' || c = '\t' || c = '\n' || c = '\r' || c = Char.ofNat 11 || c = Char.ofNat 12

/-- ASCII lower-casing, as used by case-insensitive regex matching. -/
def asciiLower (c : Char) : Char :=
  if 'A' ≤ c ∧ c ≤ 'Z' then Char.ofNat (c.toNat + 32) else c

/-- Python `str.strip()` on a character list. -/
def pyStripList (cs : List Char) : List Char :=
  ((cs.dropWhile pyIsSpace).reverse.dropWhile pyIsSpace).reverse

/-- Python `str.strip()`. -/
def pyStrip (s : String) : String :=
  String.mk (pyStripList s.data)

/-! ### Datetimes

The code only ever constructs timezone-aware UTC datetimes
(`datetime.now(UTC)`), serializes them with `isoformat()` and parses them
back with `datetime.fromisoformat`.  We model such a datetime by its
calendar fields. -/

/-- A timezone-aware UTC datetime, as produced by `datetime.now(UTC)`. -/
structure PyDateTime where
  year : Nat
  month : Nat
  day : Nat
  hour : Nat
  minute : Nat
  second : Nat
  microsecond : Nat
deriving DecidableEq, Repr

/-- Field ranges guaranteed for every datetime the program constructs. -/
def PyDateTime.valid (d : PyDateTime) : Prop :=
  0 < d.year ∧ d.year ≤ 9999 ∧ 0 < d.month ∧ d.month ≤ 12 ∧
  0 < d.day ∧ d.day ≤ 31 ∧ d.hour ≤ 23 ∧ d.minute ≤ 59 ∧
  d.second ≤ 59 ∧ d.microsecond ≤ 999999

instance (d : PyDateTime) : Decidable d.valid := by
  unfold PyDateTime.valid; infer_instance

/-- Fixed-width zero-padded decimal rendering (`%0wd` for values below
`10^w`), most significant digit first. -/
def padw : Nat → Nat → List Char
  | 0, _ => []
  | w + 1, n => Char.ofNat (n / 10 ^ w % 10 + 48) :: padw w (n % 10 ^ w)

/-- `datetime.isoformat()` for an aware UTC datetime: the microseconds
part is omitted when zero, and the offset renders as `+00:00`. -/
def pyIsoformat (d : PyDateTime) : String :=
  String.mk
    (padw 4 d.year ++ '-' :: padw 2 d.month ++ '-' :: padw 2 d.day ++
     'T' :: padw 2 d.hour ++ ':' :: padw 2 d.minute ++ ':' :: padw 2 d.second ++
     (if d.microsecond = 0 then [] else '.' :: padw 6 d.microsecond) ++
     ('+' :: '0' :: '0' :: ':' :: '0' :: '0' :: []))

/-- Read exactly `w` decimal digits from the front of a character list. -/
def readFixed : Nat → Nat → List Char → Option (Nat × List Char)
  | 0, acc, cs => some (acc, cs)
  | _ + 1, _, [] => none
  | w + 1, acc, c :: cs =>
      if '0' ≤ c ∧ c ≤ '9' then readFixed w (acc * 10 + (c.toNat - 48)) cs else none

/-- Expect one specific character at the front of a character list. -/
def expectChar (c : Char) : List Char → Option (List Char)
  | [] => none
  | x :: xs => if x = c then some xs else none

/-- `datetime.fromisoformat` restricted to the shape `isoformat` emits for
aware UTC datetimes (`YYYY-MM-DDTHH:MM:SS[.ffffff]+00:00`); other inputs —
which the program only meets on hand-edited transcript files — are
rejected, matching the `ValueError` branch of `_parse_datetime`.
`isoReadTail` handles the optional fractional part, the `+00:00` offset,
and the calendar range checks `fromisoformat` performs. -/
def isoReadTail (y mo da h mi sec : Nat) (cs : List Char) : Option PyDateTime :=
  match (match cs with
         | '.' :: rest => readFixed 6 0 rest
         | _ => some (0, cs)) with
  | none => none
  | some (micro, cs6) =>
    match cs6 with
    | '+' :: '0' :: '0' :: ':' :: '0' :: '0' :: [] =>
        if 0 < y ∧ 0 < mo ∧ mo ≤ 12 ∧ 0 < da ∧ da ≤ 31 ∧ h ≤ 23 ∧ mi ≤ 59 ∧ sec ≤ 59 then
          some ⟨y, mo, da, h, mi, sec, micro⟩
        else none
    | _ => none

def pyFromIsoformat (s : String) : Option PyDateTime :=
  match readFixed 4 0 s.data with
  | none => none
  | some (y, cs0) =>
  match expectChar '-' cs0 with
  | none => none
  | some cs1 =>
  match readFixed 2 0 cs1 with
  | none => none
  | some (mo, cs2) =>
  match expectChar '-' cs2 with
  | none => none
  | some cs3 =>
  match readFixed 2 0 cs3 with
  | none => none
  | some (da, cs4) =>
  match expectChar 'T' cs4 with
  | none => none
  | some cs5 =>
  match readFixed 2 0 cs5 with
  | none => none
  | some (h, cs6) =>
  match expectChar ':' cs6 with
  | none => none
  | some cs7 =>
  match readFixed 2 0 cs7 with
  | none => none
  | some (mi, cs8) =>
  match expectChar ':' cs8 with
  | none => none
  | some cs9 =>
  match readFixed 2 0 cs9 with
  | none => none
  | some (sec, cs10) => isoReadTail y mo da h mi sec cs10

/-- `_parse_datetime` from `transcript.py`: empty or unparseable values
fall back to the current time, which we pass in explicitly. -/
def parseDatetime (now : PyDateTime) (value : Option String) : PyDateTime :=
  match value with
  | none => now
  | some s => if s = "" then now else (pyFromIsoformat s).getD now

/-! ### JSON values

`json.dump`/`json.load` round-trip Python dict/list/str/number/bool/None
values exactly, so serialization is modelled at the level of JSON values;
"byte-identical modulo key ordering" becomes equality of these values.
Objects keep insertion order, as Python dicts do. -/

/-- A JSON value. -/
inductive Json where
  | null : Json
  | bool (b : Bool) : Json
  | num (q : Rat) : Json
  | str (s : String) : Json
  | arr (elems : List Json) : Json
  | obj (fields : List (String × Json)) : Json

/-- First value stored under a key in a JSON object field list (Python
dict lookup). -/
def jsonGet (key : String) : List (String × Json) → Option Json
  | [] => none
  | (k, v) :: rest => if k = key then some v else jsonGet key rest

/-! ### Data model (`models.py`) -/

/-- `ExperimentMetadata` from `models.py`. -/
structure ExperimentMetadata where
  experiment_id : String
  source_tool : String
  campaign_id : Option String
  condition : String
  «variables» : List (String × Json)
  finding_ref : Option String

/-- `ModelResponse` from `models.py`.  Numeric fields reported by the
vendor are machine integers without overflow concerns, embedded as `Int`;
`None` becomes `Option.none`.  The `routing` dict and the `analysis` map
hold arbitrary JSON. -/
structure ModelResponse where
  model_id : String
  model_alias : String
  round_number : Int
  content : String
  timestamp : PyDateTime
  token_count : Option Int
  input_tokens : Option Int
  output_tokens : Option Int
  latency_ms : Option Int
  error : Option String
  role : String
  routing : Option Json
  analysis : List (String × Json)

/-- `DebateRound` from `models.py`. -/
structure DebateRound where
  round_number : Int
  round_type : String
  responses : List ModelResponse

/-- A value stored in `DebateTranscript.metadata`: either plain JSON data
or an in-memory `ExperimentMetadata` object (the only non-JSON value the
program ever stores there, under the key `"experiment"`). -/
inductive MetaVal where
  | mjson (j : Json) : MetaVal
  | mexp (e : ExperimentMetadata) : MetaVal

/-- `DebateTranscript` from `models.py`. -/
structure DebateTranscript where
  transcript_id : String
  query : String
  panel : List String
  synthesizer_id : String
  max_rounds : Int
  rounds : List DebateRound
  synthesis : Option ModelResponse
  created_at : PyDateTime
  metadata : List (String × MetaVal)

/-- Python string slicing `s[:n]`: the first `n` characters. -/
def pyTakeStr (s : String) (n : Nat) : String :=
  String.mk (s.data.take n)

/-- `DebateTranscript.short_id`: the first 8 characters of the ID. -/
def DebateTranscript.short_id (t : DebateTranscript) : String :=
  pyTakeStr t.transcript_id 8

/-- Python truthiness of the `error` field (`None` and `""` are falsy):
this is the check `if r.error:` / `if not r.error:` used throughout the
orchestrator. -/
def erroredResponse (r : ModelResponse) : Bool :=
  match r.error with
  | none => false
  | some s => s ≠ ""

/-- `ModelPricing` from `pricing.py`; prices are parsed from decimal
strings, embedded as rationals. -/
structure ModelPricing where
  prompt_price : Rat
  completion_price : Rat
  context_length : Option Int

/-- `GroundTruthScore` from `scoring.py`; `overall` is a Python float
produced by `(accuracy + completeness) / 2` on small integers, which is
exact, so it is embedded as a rational. -/
structure GroundTruthScore where
  accuracy : Int
  completeness : Int
  overall : Rat
  explanation : String
  judge_model : String
deriving DecidableEq

/-- `GroundTruthScore.to_dict`. -/
def GroundTruthScore.to_dict (g : GroundTruthScore) : Json :=
  .obj [("accuracy", .num g.accuracy), ("completeness", .num g.completeness),
        ("overall", .num g.overall), ("explanation", .str g.explanation),
        ("judge_model", .str g.judge_model)]

/-! ### Score parsing (`scoring.py`)

`parse_score_response` uses three regexes: `(?i)accuracy\s*:\s*(\S+)`,
`(?i)completeness\s*:\s*(\S+)` and `(?i)explanation\s*:\s*(.*)` (DOTALL).
In each, the `\s*` runs are followed by a non-whitespace requirement, so
the regexes match deterministically: at each candidate start position the
key must match case-insensitively, then a maximal whitespace run, a colon,
a maximal whitespace run, and then a maximal nonempty token (resp. the
rest of the input).  `re.search` takes the leftmost start position where
all of that succeeds. -/

/-- Try to match `key` (given in lowercase) case-insensitively at the head
of `cs`, followed by `\s*:\s*`; return the remainder after the colon and
the second whitespace run. -/
def matchKeyColon (key : List Char) (cs : List Char) : Option (List Char) :=
  if (cs.take key.length).map asciiLower = key then
    match (cs.drop key.length).dropWhile pyIsSpace with
    | ':' :: rest => some (rest.dropWhile pyIsSpace)
    | _ => none
  else none

/-- `re.search` for `(?i)key\s*:\s*(\S+)`: leftmost match, returning the
captured token. -/
def searchKeyToken (key : List Char) : List Char → Option (List Char)
  | [] => none
  | c :: cs =>
    match matchKeyColon key (c :: cs) with
    | some rest =>
        let tok := rest.takeWhile (fun ch => !pyIsSpace ch)
        if tok = [] then searchKeyToken key cs else some tok
    | none => searchKeyToken key cs

/-- `re.search` for `(?i)key\s*:\s*(.*)` with `re.DOTALL`: leftmost match,
returning everything after the colon and whitespace. -/
def searchKeyRest (key : List Char) : List Char → Option (List Char)
  | [] => none
  | c :: cs =>
    match matchKeyColon key (c :: cs) with
    | some rest => some rest
    | none => searchKeyRest key cs

/-- A digit run as accepted inside a Python `int()` literal after the
first digit: digits with single underscores strictly between digits. -/
def pyIntRest : List Char → Bool
  | [] => true
  | '_' :: c :: cs => c.isDigit && pyIntRest cs
  | '_' :: [] => false
  | c :: cs => c.isDigit && pyIntRest cs

/-- Whether a character list is a valid unsigned Python `int()` literal. -/
def pyIntBody : List Char → Bool
  | [] => false
  | c :: cs => c.isDigit && pyIntRest cs

/-- Numeric value of such a literal (underscores ignored). -/
def pyIntVal (cs : List Char) : Nat :=
  cs.foldl (fun acc c => if c = '_' then acc else acc * 10 + (c.toNat - 48)) 0

/-- Python `int(str)` on a token with no surrounding whitespace (the
tokens come from `\S+`): optional sign, then digits with single
underscores between digits.  Returns `none` where `int()` raises
`ValueError`. -/
def pyParseInt (cs : List Char) : Option Int :=
  match cs with
  | '+' :: rest => if pyIntBody rest then some (pyIntVal rest) else none
  | '-' :: rest => if pyIntBody rest then some (-(pyIntVal rest : Int)) else none
  | _ => if pyIntBody cs then some (pyIntVal cs) else none

/-- Python `min` on two ints (first argument on ties). -/
def pyMinInt (a b : Int) : Int := if b < a then b else a

/-- Python `max` on two ints (first argument on ties). -/
def pyMaxInt (a b : Int) : Int := if a < b then b else a

/-- `parse_score_response` from `scoring.py`.  `Except.error` is the
`ValueError` (`UnparseableScore`) path, carrying the message. -/
def parse_score_response (content : String) : Except String (Int × Int × String) :=
  match searchKeyToken "accuracy".data content.data with
  | none => .error "Missing ACCURACY field in judge response"
  | some accTok =>
  match pyParseInt accTok with
  | none => .error ("Non-numeric ACCURACY value: " ++ String.mk accTok)
  | some accRaw =>
  match searchKeyToken "completeness".data content.data with
  | none => .error "Missing COMPLETENESS field in judge response"
  | some compTok =>
  match pyParseInt compTok with
  | none => .error ("Non-numeric COMPLETENESS value: " ++ String.mk compTok)
  | some compRaw =>
    let accuracy := pyMaxInt 1 (pyMinInt 5 accRaw)
    let completeness := pyMaxInt 1 (pyMinInt 5 compRaw)
    let explanation :=
      match searchKeyRest "explanation".data content.data with
      | some rest => String.mk (pyStripList rest)
      | none => ""
    .ok (accuracy, completeness, explanation)

/-- The result `score_synthesis` produces from the judge response text
(the surrounding router call is an oracle; this is its `try`/`except`
body). -/
def score_synthesis_result (judge_alias : String) (judgeContent : String) :
    GroundTruthScore :=
  match parse_score_response judgeContent with
  | .ok (a, c, e) =>
      { accuracy := a, completeness := c, overall := ((a + c : Int) : Rat) / 2,
        explanation := e, judge_model := judge_alias }
  | .error _ =>
      { accuracy := -1, completeness := -1, overall := -1,
        explanation := "Judge output could not be parsed: " ++ judgeContent,
        judge_model := judge_alias }

/-! ### Prompt templates (`prompts.py`) -/

/-- Python `sep.join(parts)`. -/
def pyJoin (sep : String) : List String → String
  | [] => ""
  | [x] => x
  | x :: y :: rest => x ++ sep ++ pyJoin sep (y :: rest)

/-- ASCII upper-casing (`str.upper` for the round-type strings, which are
all ASCII). -/
def asciiUpper (s : String) : String :=
  String.mk (s.data.map fun c => if 'a' ≤ c ∧ c ≤ 'z' then Char.ofNat (c.toNat - 32) else c)

/-- `format_initial` from `prompts.py` (template text inlined). -/
def format_initial (query : String) : String :=
  "You are participating in a multi-model panel discussion. Answer the following query to the best of your ability. Be thorough but concise.\n\nQuery: " ++ query

/-- The labelled response blocks `"\n\n".join(f"[\x7balias\x7d]:\n\x7btext\x7d" ...)`
shared by the reflection template and the synthesis transcript. -/
def labelledBlocks (pairs : List (String × String)) : String :=
  pyJoin "\n\n" (pairs.map fun p => "[" ++ p.1 ++ "]:\n" ++ p.2)

/-- `format_reflection` from `prompts.py` (template text inlined). -/
def format_reflection (query own_response : String)
    (other_responses : List (String × String)) : String :=
  "You previously answered a query as part of a multi-model panel. Below is your original response, followed by how other models on the panel responded.\n\nYour previous response:\n"
  ++ own_response
  ++ "\n\nOther panel members\x27 responses:\n"
  ++ labelledBlocks other_responses
  ++ "\n\nReflect on the other responses. Where do you agree? Where do you disagree? What did they identify that you missed? What did you get right that they missed? Provide your refined answer to the original query.\n\nOriginal query: "
  ++ query

/-- `format_synthesis` from `prompts.py` (template text inlined). -/
def format_synthesis (query formatted_transcript : String) : String :=
  "You are the designated synthesizer for a multi-model panel discussion. Below is the full debate transcript including initial responses and any reflection rounds from all panel members.\n\nOriginal query: "
  ++ query ++ "\n\n" ++ formatted_transcript
  ++ "\n\nSynthesize the strongest elements from all panel members into a single, well-reasoned response. Note where the panel reached consensus and where significant disagreements remain. Do not simply concatenate — produce a coherent, unified answer."

/-- `format_scoring` from `prompts.py` (template text inlined). -/
def format_scoring (query ground_truth synthesis : String) : String :=
  "You are evaluating the quality of an AI-generated answer against a known correct reference answer.\n\nOriginal query: "
  ++ query ++ "\n\nReference answer (ground truth):\n" ++ ground_truth
  ++ "\n\nResponse to evaluate:\n" ++ synthesis
  ++ "\n\nScore the response on two dimensions, each from 1 to 5:\n\n- **Accuracy** (1-5): How factually correct is the response compared to the reference? 5 = fully correct, 1 = fundamentally wrong.\n- **Completeness** (1-5): How much of the reference answer\x27s key information does the response cover? 5 = covers everything, 1 = misses almost all points.\n\nRespond in EXACTLY this format (no other text):\nACCURACY: <score>\nCOMPLETENESS: <score>\nEXPLANATION: <1-3 sentence explanation of the scores>"

/-- `RoundSummary` from `prompts.py`. -/
structure RoundSummary where
  round_type : String
  responses : List (String × String)

/-- `format_transcript_for_synthesis` from `prompts.py`. -/
def format_transcript_for_synthesis (rounds : List RoundSummary) : String :=
  pyJoin "\n\n" (rounds.map fun info =>
    "=== " ++ asciiUpper info.round_type ++ " ROUND ===\n\n" ++ labelledBlocks info.responses)

/-! ### Orchestrator (`orchestrator.py`)

The provider router is constructed here but its module
(`providers/router.py`) is not part of the source tree.  Modelled from the
spec: `router.complete` is a single dispatch returning a normalized
`ModelResponse`, and `router.complete_parallel` fans a request list out
and returns one response per request in input order (the in-tree default
implementation `Provider.complete_parallel` in `providers/base.py` does
exactly this with `asyncio.gather`).  A dispatch is therefore an oracle
function from a request to either a response or a raised
`asyncio.CancelledError`, which the orchestrator never catches. -/

/-- One keyword-argument record handed to `router.complete`. -/
structure Request where
  alias_or_id : String
  prompt : String
  model_alias : String
  round_number : Int

/-- A dispatch oracle: `Except.error ()` is a raised `CancelledError`. -/
def Dispatch : Type := Request → Except Unit ModelResponse

/-- `Config` from `config.py`, restricted to the fields `run_debate` and
`run_replay` read. -/
structure Config where
  default_panel : List String
  default_synthesizer : String
  default_rounds : Int
  routing : List (String × String)
  providers : List String

/-- First value under a key in a string-valued assoc list (Python dict
`get`). -/
def strGet (key : String) : List (String × String) → Option String
  | [] => none
  | (k, v) :: rest => if k = key then some v else strGet key rest

/-- `_inject_context` from `orchestrator.py` (`None` and empty dict, and a
missing or empty context string, all leave the prompt unchanged). -/
def injectContext (prompt aliasName : String)
    (pctx : Option (List (String × String))) : String :=
  match pctx with
  | none => prompt
  | some m =>
    if m = [] then prompt
    else
      match strGet aliasName m with
      | none => prompt
      | some ctx => if ctx = "" then prompt else ctx ++ "\n\n" ++ prompt

/-- The requests `_run_initial_round` builds, one per panel alias in panel
order. -/
def initialRequests (query : String) (panel_aliases : List String)
    (pctx : Option (List (String × String))) : List Request :=
  panel_aliases.map fun aliasName =>
    { alias_or_id := aliasName, prompt := injectContext (format_initial query) aliasName pctx,
      model_alias := aliasName, round_number := 0 }

/-- The dict comprehension `\x7br.model_alias: r for r in prev_responses\x7d`
looked up at `alias`: iterating in order, a later response with the same
alias overwrites an earlier one. -/
def responseMapGet (prev : List ModelResponse) (aliasName : String) :
    Option ModelResponse :=
  prev.foldl (fun acc r => if r.model_alias = aliasName then some r else acc) none

/-- The `own_text` a panelist sees in a reflection round: its own previous
response content, or the placeholder when missing or errored. -/
def reflectionOwnText (prev : List ModelResponse) (aliasName : String) : String :=
  match responseMapGet prev aliasName with
  | some own => if erroredResponse own then "[No response available]" else own.content
  | none => "[No response available]"

/-- The `(peer_alias, peer_content)` list a panelist sees in a reflection
round: previous responses of other aliases that did not error, in
previous-round order. -/
def reflectionOthers (prev : List ModelResponse) (aliasName : String) :
    List (String × String) :=
  (prev.filter fun r => r.model_alias ≠ aliasName && !erroredResponse r).map
    fun r => (r.model_alias, r.content)

/-- The requests `_run_reflection_round` builds, one per panel alias in
panel order. -/
def reflectionRequests (query : String) (panel_aliases : List String)
    (prev : List ModelResponse) (round_number : Int)
    (pctx : Option (List (String × String))) : List Request :=
  panel_aliases.map fun aliasName =>
    { alias_or_id := aliasName,
      prompt := injectContext
        (format_reflection query (reflectionOwnText prev aliasName) (reflectionOthers prev aliasName))
        aliasName pctx,
      model_alias := aliasName, round_number := round_number }

/-- `complete_parallel`: one dispatch per request, results in input order;
a raised `CancelledError` in any task propagates out of the
`asyncio.gather`. -/
def completeParallel (c : Dispatch) (reqs : List Request) :
    Except Unit (List ModelResponse) :=
  reqs.mapM c

/-- The role stamping loop `for r in responses: r.role = ...`. -/
def stampRole (role : String) (rs : List ModelResponse) : List ModelResponse :=
  rs.map fun r => { r with role := role }

/-- The reflection loop `for round_num in range(start, start + fuel)`:
returns the reflection rounds appended to the transcript, in order, or
propagates a cancellation. -/
def runReflections (c : Dispatch) (query : String) (panel_aliases : List String)
    (pctx : Option (List (String × String))) :
    List ModelResponse → Int → Nat → Except Unit (List DebateRound)
  | _, _, 0 => .ok []
  | prev, roundNum, fuel + 1 =>
    match completeParallel c (reflectionRequests query panel_aliases prev roundNum pctx) with
    | .error e => .error e
    | .ok resp =>
      let stamped := stampRole "reflection" resp
      match runReflections c query panel_aliases pctx stamped (roundNum + 1) fuel with
      | .error e => .error e
      | .ok rest => .ok (⟨roundNum, "reflection", stamped⟩ :: rest)

/-- The synthesis prompt `_run_synthesis` builds over the accumulated
rounds (surviving responses only). -/
def buildSynthesisPrompt (query : String) (rounds : List DebateRound) : String :=
  format_synthesis query (format_transcript_for_synthesis (rounds.map fun rd =>
    { round_type := rd.round_type,
      responses := (rd.responses.filter fun r => !erroredResponse r).map
        fun r => (r.model_alias, r.content) }))

/-- Python dict assignment `m[key] = v` on an insertion-ordered map:
update in place if present, else append. -/
def dictSet (key : String) (v : Json) : List (String × Json) → List (String × Json)
  | [] => [(key, v)]
  | (k, w) :: rest => if k = key then (k, v) :: rest else (k, w) :: dictSet key v rest

/-! ### Stats aggregation (`_compute_stats` and `pricing.py`)

`PricingCache.get_pricing` consults an in-memory catalog fetched from the
network (including the direct-to-aggregator alias mapping); after the
prefetch it is a pure map from model ID to optional pricing, which we pass
in as an oracle. -/

/-- `compute_response_cost` from `pricing.py`. -/
def compute_response_cost (r : ModelResponse) (pricing : Option ModelPricing) :
    Option Rat :=
  match pricing with
  | none => none
  | some p =>
    match r.input_tokens, r.output_tokens with
    | some i, some o => some ((i : Rat) * p.prompt_price + (o : Rat) * p.completion_price)
    | _, _ => none

/-- One `per_model` entry in `_compute_stats`. -/
structure PerModelEntry where
  tokens : Int
  input_tokens : Int
  output_tokens : Int
  calls : Int
  cost_usd : Rat

/-- The result dict of `_compute_stats` (fixed keys; `convergence` is a
constant empty map, omitted). -/
structure StatsResult where
  total_tokens : Int
  per_model : List (String × PerModelEntry)
  total_cost_usd : Option Rat

/-- The response list `_compute_stats` iterates: every round's responses
followed by the synthesis response when present. -/
def allResponses (t : DebateTranscript) : List ModelResponse :=
  (t.rounds.map (fun rd => rd.responses)).flatten ++
    (match t.synthesis with
     | some s => [s]
     | none => [])

/-- Python `per_model[aliasName] = default if absent, then mutate`: update in
place when the key exists, else append a freshly initialized entry and
update it. -/
def pmUpdate (aliasName : String) (f : PerModelEntry → PerModelEntry) :
    List (String × PerModelEntry) → List (String × PerModelEntry)
  | [] => [(aliasName, f ⟨0, 0, 0, 0, 0⟩)]
  | (k, e) :: rest =>
    if k = aliasName then (k, f e) :: rest else (k, e) :: pmUpdate aliasName f rest

/-- Accumulator state of the `for r in all_responses` loop in
`_compute_stats`. -/
structure StatsAcc where
  total_tokens : Int
  total_cost : Rat
  has_any_cost : Bool
  per_model : List (String × PerModelEntry)

/-- One iteration of the `_compute_stats` loop. -/
def statsStep (pricing : String → Option ModelPricing) (acc : StatsAcc)
    (r : ModelResponse) : StatsAcc :=
  let tokens : Int := r.token_count.getD 0
  let cost := compute_response_cost r (pricing r.model_id)
  { total_tokens := acc.total_tokens + tokens,
    total_cost := acc.total_cost + cost.getD 0,
    has_any_cost := acc.has_any_cost || cost.isSome,
    per_model := pmUpdate r.model_alias
      (fun e =>
        { tokens := e.tokens + tokens,
          input_tokens := e.input_tokens + r.input_tokens.getD 0,
          output_tokens := e.output_tokens + r.output_tokens.getD 0,
          calls := e.calls + 1,
          cost_usd := e.cost_usd + cost.getD 0 })
      acc.per_model }

/-- `_compute_stats` from `orchestrator.py`. -/
def computeStats (t : DebateTranscript) (pricing : String → Option ModelPricing) :
    StatsResult :=
  let acc := (allResponses t).foldl (statsStep pricing) ⟨0, 0, false, []⟩
  { total_tokens := acc.total_tokens,
    per_model := acc.per_model,
    total_cost_usd := if acc.has_any_cost then some acc.total_cost else none }

/-- The JSON shape of the stats dict as it lands in
`transcript.metadata["stats"]`. -/
def statsJson (s : StatsResult) : Json :=
  .obj [("total_tokens", .num s.total_tokens),
        ("per_model", .obj (s.per_model.map fun kv =>
          (kv.1, Json.obj [("tokens", .num kv.2.tokens),
                           ("input_tokens", .num kv.2.input_tokens),
                           ("output_tokens", .num kv.2.output_tokens),
                           ("calls", .num kv.2.calls),
                           ("cost_usd", .num kv.2.cost_usd)]))),
        ("total_cost_usd", match s.total_cost_usd with
                           | some q => .num q
                           | none => .null),
        ("convergence", .obj [])]

/-! ### `run_debate` and `run_replay` -/

/-- `panel or config.default_panel` (an empty panel list is falsy). -/
def resolvedPanel (config : Config) (panel : Option (List String)) : List String :=
  match panel with
  | some p => if p = [] then config.default_panel else p
  | none => config.default_panel

/-- `synthesizer or config.default_synthesizer` (an empty string is
falsy). -/
def resolvedSynth (config : Config) (synthesizer : Option String) : String :=
  match synthesizer with
  | some s => if s = "" then config.default_synthesizer else s
  | none => config.default_synthesizer

/-- `min(rounds or config.default_rounds, 3)` (a rounds value of `0` is
falsy and falls back to the default; no lower bound is enforced). -/
def resolvedRounds (config : Config) (rounds : Option Int) : Int :=
  pyMinInt
    (match rounds with
     | some r => if r = 0 then config.default_rounds else r
     | none => config.default_rounds)
    3

/-- The `metadata["scores"]` entry recorded when ground-truth scoring
runs. -/
def scoresMetaJson (ground_truth synth_alias : String) (score : GroundTruthScore) :
    Json :=
  .obj [("ground_truth", .str ground_truth),
        ("judge_model", .str synth_alias),
        ("synthesis_score", score.to_dict)]

/-- The `metadata["resolved_config"]` entry. -/
def resolvedConfigJson (panel_aliases : List String) (synth_alias : String)
    (num_rounds : Int) (config : Config) : Json :=
  .obj [("panel", .arr (panel_aliases.map Json.str)),
        ("synthesizer", .str synth_alias),
        ("rounds", .num num_rounds),
        ("routing", .obj (config.routing.map fun kv => (kv.1, Json.str kv.2))),
        ("providers", .arr (config.providers.map Json.str))]

/-- The optional `metadata["panelist_context"]` entry (only when the
context map is truthy). -/
def pctxMeta (pctx : Option (List (String × String))) : List (String × MetaVal) :=
  match pctx with
  | none => []
  | some m =>
    if m = [] then []
    else [("panelist_context", .mjson (.obj (m.map fun kv => (kv.1, Json.str kv.2))))]

/-- The scoring step shared by `run_debate` and `run_replay`: when a
truthy ground truth is supplied and the synthesis did not error, one more
dispatch (round number −2) goes to the judge and the parsed score is
recorded on the synthesis response and in the metadata.  Returns the
final synthesis response and the scores metadata entries, or propagates a
cancellation. -/
def scoringStep (c : Dispatch) (query synth_alias : String)
    (ground_truth : Option String) (synthesis : ModelResponse) :
    Except Unit (ModelResponse × List (String × MetaVal)) :=
  match ground_truth with
  | none => .ok (synthesis, [])
  | some g =>
    if g = "" ∨ erroredResponse synthesis then .ok (synthesis, [])
    else
      match c { alias_or_id := synth_alias,
                prompt := format_scoring query g synthesis.content,
                model_alias := synth_alias, round_number := -2 } with
      | .error e => .error e
      | .ok judge =>
        let score := score_synthesis_result synth_alias judge.content
        .ok ({ synthesis with
                 analysis := dictSet "ground_truth_score" score.to_dict synthesis.analysis },
             [("scores", .mjson (scoresMetaJson g synth_alias score))])

/-- `run_debate` from `orchestrator.py`.  The dispatch oracle, the pricing
oracle, and the generated transcript identity (`uuid4`, `datetime.now`)
and package version are explicit arguments; `Except.error ()` is a
propagated `asyncio.CancelledError`. -/
def runDebate (c : Dispatch) (pricing : String → Option ModelPricing)
    (query : String) (config : Config) (panel : Option (List String))
    (synthesizer : Option String) (rounds : Option Int)
    (ground_truth : Option String) (pctx : Option (List (String × String)))
    (tid : String) (created : PyDateTime) (version : String) :
    Except Unit DebateTranscript :=
  let panel_aliases := resolvedPanel config panel
  let synth_alias := resolvedSynth config synthesizer
  let num_rounds := resolvedRounds config rounds
  match completeParallel c (initialRequests query panel_aliases pctx) with
  | .error e => .error e
  | .ok initResp =>
    let initStamped := stampRole "initial" initResp
    match runReflections c query panel_aliases pctx initStamped 1 num_rounds.toNat with
    | .error e => .error e
    | .ok reflRounds =>
      let roundsList := (⟨0, "initial", initStamped⟩ : DebateRound) :: reflRounds
      match c { alias_or_id := synth_alias,
                prompt := buildSynthesisPrompt query roundsList,
                model_alias := synth_alias, round_number := -1 } with
      | .error e => .error e
      | .ok synthResp =>
        match scoringStep c query synth_alias ground_truth
                { synthResp with role := "synthesis" } with
        | .error e => .error e
        | .ok (synthesis, scoresMeta) =>
          let metadata :=
            [("version", MetaVal.mjson (.str version))] ++ scoresMeta ++ pctxMeta pctx ++
            [("resolved_config",
              MetaVal.mjson (resolvedConfigJson panel_aliases synth_alias num_rounds config))]
          let t0 : DebateTranscript :=
            { transcript_id := tid, query := query, panel := panel_aliases,
              synthesizer_id := synth_alias, max_rounds := num_rounds,
              rounds := roundsList, synthesis := some synthesis,
              created_at := created, metadata := metadata }
          .ok { t0 with
                  metadata := metadata ++
                    [("stats", MetaVal.mjson (statsJson (computeStats t0 pricing)))] }

/-- Errors `run_replay` can surface: the `ValueError` for negative
`additional_rounds`, the `IndexError` from `source.rounds[-1]` on an
empty source, and a propagated cancellation. -/
inductive ReplayErr where
  | badArguments (msg : String) : ReplayErr
  | indexError : ReplayErr
  | cancelled : ReplayErr
deriving DecidableEq

/-- The reflection loop of `run_replay`, mirroring `runReflections` but
with `ReplayErr`-typed cancellation. -/
def replayReflections (c : Dispatch) (query : String) (panel_aliases : List String)
    (pctx : Option (List (String × String))) :
    List ModelResponse → Int → Nat → Except ReplayErr (List DebateRound)
  | _, _, 0 => .ok []
  | prev, roundNum, fuel + 1 =>
    match completeParallel c (reflectionRequests query panel_aliases prev roundNum pctx) with
    | .error _ => .error .cancelled
    | .ok resp =>
      let stamped := stampRole "reflection" resp
      match replayReflections c query panel_aliases pctx stamped (roundNum + 1) fuel with
      | .error e => .error e
      | .ok rest => .ok (⟨roundNum, "reflection", stamped⟩ :: rest)

/-- `synthesizer or source.synthesizer_id` in `run_replay` (an empty
string is falsy). -/
def replaySynth (source : DebateTranscript) (synthesizer : Option String) : String :=
  match synthesizer with
  | some s => if s = "" then source.synthesizer_id else s
  | none => source.synthesizer_id

/-- `run_replay` from `orchestrator.py`.  The rounds list starts as a
shallow copy of the source rounds (`list(source.rounds)` — the same round
objects); new reflection rounds are numbered from `len(source.rounds)`. -/
def runReplay (c : Dispatch) (pricing : String → Option ModelPricing)
    (source : DebateTranscript) (synthesizer : Option String)
    (additional_rounds : Int) (ground_truth : Option String)
    (pctx : Option (List (String × String)))
    (tid : String) (created : PyDateTime) (version : String) :
    Except ReplayErr DebateTranscript :=
  if additional_rounds < 0 then
    .error (.badArguments ("additional_rounds must be >= 0, got " ++ toString additional_rounds))
  else
    let synth_alias := replaySynth source synthesizer
    match
      (if additional_rounds > 0 then
        match source.rounds.getLast? with
        | none => (.error .indexError : Except ReplayErr (List DebateRound))
        | some lastRound =>
          replayReflections c source.query source.panel pctx lastRound.responses
            (source.rounds.length : Int) additional_rounds.toNat
      else .ok ([] : List DebateRound)) with
    | .error e => .error e
    | .ok newRounds =>
      let roundsList := source.rounds ++ newRounds
      match c { alias_or_id := synth_alias,
                prompt := buildSynthesisPrompt source.query roundsList,
                model_alias := synth_alias, round_number := -1 } with
      | .error _ => .error .cancelled
      | .ok synthResp =>
        match scoringStep c source.query synth_alias ground_truth
                { synthResp with role := "synthesis" } with
        | .error _ => .error .cancelled
        | .ok (synthesis, scoresMeta) =>
          let metadata :=
            [("version", MetaVal.mjson (.str version))] ++ scoresMeta ++ pctxMeta pctx ++
            [("source_transcript_id", MetaVal.mjson (.str source.transcript_id)),
             ("replay_config", MetaVal.mjson (.obj
               [("synthesizer_override",
                 match synthesizer with
                 | some s => .str s
                 | none => .null),
                ("additional_rounds", .num additional_rounds)]))]
          let t0 : DebateTranscript :=
            { transcript_id := tid, query := source.query, panel := source.panel,
              synthesizer_id := synth_alias,
              max_rounds := source.max_rounds + additional_rounds,
              rounds := roundsList, synthesis := some synthesis,
              created_at := created, metadata := metadata }
          .ok { t0 with
                  metadata := metadata ++
                    [("stats", MetaVal.mjson (statsJson (computeStats t0 pricing)))] }

/-- `_handle_abort` from `web/pages/debate.py`: the transcript the web
layer constructs after it catches the `CancelledError` that `run_debate`
let propagate.  `state.completed_rounds` holds the non-synthesis rounds
the progress callback delivered before cancellation. -/
def handleAbort (query_text : String) (selected_panel : List String)
    (synth_value : String) (num_rounds : Int)
    (completed_rounds : List DebateRound) (tid : String) (created : PyDateTime) :
    DebateTranscript :=
  { transcript_id := tid, query := pyStrip query_text, panel := selected_panel,
    synthesizer_id := synth_value, max_rounds := num_rounds,
    rounds := completed_rounds, synthesis := none, created_at := created,
    metadata := [("aborted", .mjson (.bool true))] }

/-! ### OpenRouter provider (`providers/openrouter.py`, mirrored in
`client.py`)

`complete` posts the payload with `httpx` and normalizes the result.  The
network interaction is an oracle: a request either times out
(`httpx.TimeoutException`, the only exception the `try` catches), fails
with some other transport/connection error (e.g. `httpx.ConnectError`,
which the `try` does **not** catch), or yields an HTTP response with a
status code and a body.  Elapsed wall time is likewise oracle data. -/

/-- An HTTP response as `complete` observes it: status code, the parsed
JSON body when `resp.json()` succeeds, and the raw text. -/
structure HttpResp where
  status : Int
  jsonBody : Option Json
  text : String

/-- The outcome of the `httpx` post. -/
inductive HttpOutcome where
  | timeout : HttpOutcome
  | connectError : HttpOutcome
  | response (resp : HttpResp) : HttpOutcome

/-- An exception escaping `complete`: a non-timeout transport error from
the post, or a `JSONDecodeError` from `resp.json()` on the 200 path. -/
inductive PyRaised where
  | transport : PyRaised
  | decode : PyRaised
deriving DecidableEq

/-- Python `repr`-style rendering of a number parsed from JSON (`int`
repr exactly; non-integer floats approximated by the rational's own
rendering — only diagnostic message text depends on it). -/
def ratPyRepr (q : Rat) : String :=
  if q.den = 1 then toString q.num else toString q

/-- Python `str`/`repr` of a parsed-JSON value, used by the diagnostic
sentinels (`str(data)`, `f"[Failed to parse response: ...]"`). -/
def pyReprJson : Json → String
  | .null => "None"
  | .bool b => if b then "True" else "False"
  | .num q => ratPyRepr q
  | .str s => "\x27" ++ s ++ "\x27"
  | .arr xs => "[" ++ pyJoin ", " (xs.attach.map fun x => pyReprJson x.1) ++ "]"
  | .obj fs => "\x7b" ++
      pyJoin ", " (fs.attach.map fun kv => "\x27" ++ kv.1.1 ++ "\x27: " ++ pyReprJson kv.1.2) ++
      "\x7d"
decreasing_by
  · have h := List.sizeOf_lt_of_mem x.2
    simp only [Json.arr.sizeOf_spec]
    omega
  · have h := List.sizeOf_lt_of_mem kv.2
    have h2 : sizeOf kv.1.2 < sizeOf kv.1 := by
      obtain ⟨⟨a, b⟩, hm⟩ := kv
      simp
    simp only [Json.obj.sizeOf_spec]
    omega

/-- Python `str()` of a parsed-JSON value (a string renders as itself,
anything else as its repr). -/
def pyStrJson : Json → String
  | .str s => s
  | j => pyReprJson j

/-- `_extract_content`.  The source guards the subscript chain
`data["choices"][0]["message"]["content"]` with an `except` clause
listing `KeyError, IndexError, TypeError` (written in Python-2 comma
style); a failing lookup yields the diagnostic sentinel.  A non-string
value at the end of the chain cannot occur for the wire shape and is
mapped to the sentinel here. -/
def extract_content (data : Json) : String :=
  match (match data with
         | .obj fields =>
           match jsonGet "choices" fields with
           | some (.arr (first :: _)) =>
             match first with
             | .obj mfields =>
               match jsonGet "message" mfields with
               | some (.obj cfields) => jsonGet "content" cfields
               | _ => none
             | _ => none
           | _ => none
         | _ => none) with
  | some (.str content) => content
  | _ => "[Failed to parse response: " ++ pyReprJson data ++ "]"

/-- `_extract_token_count`: reads `usage.total_tokens` when present.
`int()` on a JSON number truncates toward zero; non-object bodies and
non-numeric values (excluded by the wire shape) yield `none`. -/
def extract_token_count (data : Json) : Option Int :=
  match data with
  | .obj fields =>
    match jsonGet "usage" fields with
    | some (.obj ufields) =>
      if (jsonGet "total_tokens" ufields).isSome then
        match jsonGet "total_tokens" ufields with
        | some (.num q) => some (q.num.tdiv q.den)
        | _ => none
      else none
    | _ => none
  | _ => none

/-- `_extract_error`: error detail for a non-2xx response.  When the body
is not valid JSON (or is not a dict, so that `.get` raises), the
`except Exception` arm returns the first 500 characters of the text. -/
def extract_error (resp : HttpResp) : String :=
  match resp.jsonBody with
  | some (.obj fields) =>
    match jsonGet "error" fields with
    | some (.obj efields) =>
      (match jsonGet "message" efields with
       | some v => pyStrJson v
       | none => pyReprJson (.obj fields))
    | some e => pyStrJson e
    | none => pyReprJson (.obj fields)
  | _ => pyTakeStr resp.text 500

/-- Python `repr` of the float timeout used in the timeout message
(integral floats render with a trailing `.0`). -/
def floatRepr (q : Rat) : String :=
  if q.den = 1 then toString q.num ++ ".0" else toString q

/-- `model_id.split("/")[-1]`: the alias fallback when none is given. -/
def lastSlashComponent (model_id : String) : String :=
  (model_id.splitOn "/").getLastD model_id

/-- `OpenRouterProvider.complete` (the `client.py` version is identical),
called inside an open scope.  `outcome` and `elapsed_ms` are the network
oracle; `ts` is the response construction time.  `Except.error` is an
exception escaping the call. -/
def openRouterComplete (model_id model_alias : String) (round_number : Int)
    (timeout : Rat) (outcome : HttpOutcome) (elapsed_ms : Int)
    (ts : PyDateTime) : Except PyRaised ModelResponse :=
  let aliasUsed := if model_alias = "" then lastSlashComponent model_id else model_alias
  match outcome with
  | .timeout =>
      .ok { model_id := model_id, model_alias := aliasUsed,
            round_number := round_number, content := "", timestamp := ts,
            token_count := none, input_tokens := none, output_tokens := none,
            latency_ms := some elapsed_ms,
            error := some ("Request timed out after " ++ floatRepr timeout ++ "s"),
            role := "", routing := none, analysis := [] }
  | .connectError => .error .transport
  | .response resp =>
      if resp.status ≠ 200 then
        .ok { model_id := model_id, model_alias := aliasUsed,
              round_number := round_number, content := "", timestamp := ts,
              token_count := none, input_tokens := none, output_tokens := none,
              latency_ms := some elapsed_ms,
              error := some ("HTTP " ++ toString resp.status ++ ": " ++ extract_error resp),
              role := "", routing := none, analysis := [] }
      else
        match resp.jsonBody with
        | none => .error .decode
        | some data =>
            .ok { model_id := model_id, model_alias := aliasUsed,
                  round_number := round_number, content := extract_content data,
                  timestamp := ts, token_count := extract_token_count data,
                  input_tokens := none, output_tokens := none,
                  latency_ms := some elapsed_ms, error := none,
                  role := "", routing := none, analysis := [] }

/-! ### Serialization (`models.py` `to_dict`, `transcript.py` loaders)

The loaders run over `json.load` output.  The Python code is untyped;
this embedding extracts fields at their schema types and makes the parse
fail on values of the wrong JSON type, which stands in for the loader
propagating an exception or constructing an out-of-schema object — the
on-disk schema written by `to_dict` never produces such values. -/

/-- Optional int serialized as JSON (`None` becomes `null`). -/
def optIntJson : Option Int → Json
  | some n => .num n
  | none => .null

/-- Optional string serialized as JSON (`None` becomes `null`). -/
def optStrJson : Option String → Json
  | some s => .str s
  | none => .null

/-- `ModelResponse.to_dict`. -/
def responseToDict (r : ModelResponse) : Json :=
  .obj [("model_id", .str r.model_id),
        ("model_alias", .str r.model_alias),
        ("round_number", .num r.round_number),
        ("content", .str r.content),
        ("timestamp", .str (pyIsoformat r.timestamp)),
        ("token_count", optIntJson r.token_count),
        ("input_tokens", optIntJson r.input_tokens),
        ("output_tokens", optIntJson r.output_tokens),
        ("latency_ms", optIntJson r.latency_ms),
        ("error", optStrJson r.error),
        ("role", .str r.role),
        ("routing", match r.routing with
                    | some j => j
                    | none => .null),
        ("analysis", .obj r.analysis)]

/-- `DebateRound.to_dict`. -/
def roundToDict (rd : DebateRound) : Json :=
  .obj [("round_number", .num rd.round_number),
        ("round_type", .str rd.round_type),
        ("responses", .arr (rd.responses.map responseToDict))]

/-- `ExperimentMetadata.to_dict`. -/
def experimentToDict (e : ExperimentMetadata) : Json :=
  .obj [("experiment_id", .str e.experiment_id),
        ("source_tool", .str e.source_tool),
        ("campaign_id", optStrJson e.campaign_id),
        ("condition", .str e.condition),
        ("variables", .obj e.«variables»),
        ("finding_ref", optStrJson e.finding_ref)]

/-- How a metadata value serializes in `DebateTranscript.to_dict`: an
`ExperimentMetadata` instance goes through its own `to_dict`, everything
else is stored as-is. -/
def metaValToDict : MetaVal → Json
  | .mjson j => j
  | .mexp e => experimentToDict e

/-- `DebateTranscript.to_dict`. -/
def transcriptToDict (t : DebateTranscript) : Json :=
  .obj [("transcript_id", .str t.transcript_id),
        ("query", .str t.query),
        ("panel", .arr (t.panel.map Json.str)),
        ("synthesizer_id", .str t.synthesizer_id),
        ("max_rounds", .num t.max_rounds),
        ("rounds", .arr (t.rounds.map roundToDict)),
        ("synthesis", match t.synthesis with
                      | some s => responseToDict s
                      | none => .null),
        ("created_at", .str (pyIsoformat t.created_at)),
        ("metadata", .obj (t.metadata.map fun kv => (kv.1, metaValToDict kv.2)))]

/-- An optional-int field read with `data.get(key)`: missing and `null`
give `None`. -/
def jsonOptIntField (fields : List (String × Json)) (key : String) :
    Option (Option Int) :=
  match jsonGet key fields with
  | none => some none
  | some .null => some none
  | some (.num q) => if q.den = 1 then some (some q.num) else none
  | some _ => none

/-- An optional-string field read with `data.get(key)`. -/
def jsonOptStrField (fields : List (String × Json)) (key : String) :
    Option (Option String) :=
  match jsonGet key fields with
  | none => some none
  | some .null => some none
  | some (.str s) => some (some s)
  | some _ => none

/-- `_parse_response` from `transcript.py`.  `now` is the fallback
timestamp `_parse_datetime` substitutes. -/
def parseResponse (now : PyDateTime) (j : Json) : Option ModelResponse :=
  match j with
  | .obj fields =>
    match jsonGet "model_id" fields, jsonGet "model_alias" fields,
          jsonGet "round_number" fields, jsonGet "content" fields with
    | some (.str mid), some (.str mal), some (.num rn), some (.str ct) =>
      if rn.den = 1 then
        match jsonOptIntField fields "token_count", jsonOptIntField fields "input_tokens",
              jsonOptIntField fields "output_tokens", jsonOptIntField fields "latency_ms",
              jsonOptStrField fields "error" with
        | some tc, some it, some ot, some lm, some er =>
          match (match jsonGet "role" fields with
                 | some (.str r) => some r
                 | none => some ""
                 | some _ => none),
                (match jsonGet "routing" fields with
                 | none => some (none : Option Json)
                 | some .null => some none
                 | some rj => some (some rj)),
                (match jsonGet "analysis" fields with
                 | some (.obj afs) => some afs
                 | none => some []
                 | some _ => none) with
          | some role, some routing, some analysis =>
            some { model_id := mid, model_alias := mal, round_number := rn.num,
                   content := ct,
                   timestamp := parseDatetime now
                     (match jsonGet "timestamp" fields with
                      | some (.str s) => some s
                      | _ => none),
                   token_count := tc, input_tokens := it, output_tokens := ot,
                   latency_ms := lm, error := er, role := role,
                   routing := routing, analysis := analysis }
          | _, _, _ => none
        | _, _, _, _, _ => none
      else none
    | _, _, _, _ => none
  | _ => none

/-- One round parsed by `_parse_transcript_file`. -/
def parseRound (now : PyDateTime) (j : Json) : Option DebateRound :=
  match j with
  | .obj fields =>
    match jsonGet "round_number" fields, jsonGet "round_type" fields with
    | some (.num rn), some (.str rt) =>
      if rn.den = 1 then
        match (match jsonGet "responses" fields with
               | some (.arr rs) => some rs
               | none => some []
               | some _ => none) with
        | some rs =>
          match rs.mapM (parseResponse now) with
          | some resps => some ⟨rn.num, rt, resps⟩
          | none => none
        | none => none
      else none
    | _, _ => none
  | _ => none

/-- `ExperimentMetadata.from_dict` (defaults per the dataclass). -/
def expFromDict (efs : List (String × Json)) : Option ExperimentMetadata :=
  match jsonGet "experiment_id" efs with
  | some (.str eid) =>
    match (match jsonGet "source_tool" efs with
           | some (.str s) => some s
           | none => some "manual"
           | some _ => none),
          (match jsonGet "campaign_id" efs with
           | some (.str s) => some (some s)
           | some .null => some none
           | none => some (none : Option String)
           | some _ => none),
          (match jsonGet "condition" efs with
           | some (.str s) => some s
           | none => some ""
           | some _ => none),
          (match jsonGet "variables" efs with
           | some (.obj vs) => some vs
           | none => some []
           | some _ => none),
          (match jsonGet "finding_ref" efs with
           | some (.str s) => some (some s)
           | some .null => some none
           | none => some (none : Option String)
           | some _ => none) with
    | some st, some cid, some cond, some vars, some fr =>
      some ⟨eid, st, cid, cond, vars, fr⟩
    | _, _, _, _, _ => none
  | _ => none

/-- Python truthiness of a parsed-JSON value (`if synthesis_data:`). -/
def jsonTruthy : Json → Bool
  | .null => false
  | .bool b => b
  | .num q => q ≠ 0
  | .str s => s ≠ ""
  | .arr xs => !xs.isEmpty
  | .obj fs => !fs.isEmpty

/-- The metadata reconstitution step of `_parse_transcript_file`: the
`"experiment"` entry becomes an `ExperimentMetadata` instance when it is
a dict carrying `"experiment_id"`; all other entries stay raw. -/
def parseMetaEntry (kv : String × Json) : Option (String × MetaVal) :=
  if kv.1 = "experiment" then
    match kv.2 with
    | .obj efs =>
      if (jsonGet "experiment_id" efs).isSome then
        match expFromDict efs with
        | some e => some (kv.1, .mexp e)
        | none => none
      else some (kv.1, .mjson kv.2)
    | _ => some (kv.1, .mjson kv.2)
  else some (kv.1, .mjson kv.2)

/-- `_parse_transcript_file` from `transcript.py`, applied to the parsed
JSON document. -/
def parseTranscript (now : PyDateTime) (j : Json) : Option DebateTranscript :=
  match j with
  | .obj fields =>
    match jsonGet "transcript_id" fields, jsonGet "query" fields,
          jsonGet "panel" fields, jsonGet "synthesizer_id" fields,
          jsonGet "max_rounds" fields with
    | some (.str tid), some (.str q), some (.arr panelJson),
      some (.str sid), some (.num mr) =>
      if mr.den = 1 then
        match panelJson.mapM (fun pj =>
                match pj with
                | Json.str s => some s
                | _ => none),
              (match jsonGet "rounds" fields with
               | some (.arr rs) => rs.mapM (parseRound now)
               | none => some []
               | some _ => none),
              (match jsonGet "synthesis" fields with
               | none => some (none : Option ModelResponse)
               | some sj =>
                 if jsonTruthy sj then (parseResponse now sj).map some
                 else some none),
              (match jsonGet "metadata" fields with
               | some (.obj mfs) => mfs.mapM parseMetaEntry
               | none => some []
               | some _ => none) with
        | some panel, some rounds, some synthesis, some metadata =>
          some { transcript_id := tid, query := q, panel := panel,
                 synthesizer_id := sid, max_rounds := mr.num, rounds := rounds,
                 synthesis := synthesis,
                 created_at := parseDatetime now
                   (match jsonGet "created_at" fields with
                    | some (.str s) => some s
                    | _ => none),
                 metadata := metadata }
        | _, _, _, _ => none
      else none
    | _, _, _, _, _ => none
  | _ => none

/-! ### Transcript store (`transcript.py`) -/

/-- A transcript file on disk: its filename, the short-ID segment of the
filename (the part after the first underscore of the stem), and the
parsed JSON document. -/
structure StoredFile where
  fileName : String
  shortName : String
  doc : Json

/-- `save_transcript`: file `<YYYY-MM-DD>_<short-id>.json` holding the
serialized transcript. -/
def saveTranscript (t : DebateTranscript) : StoredFile :=
  { fileName :=
      String.mk (padw 4 t.created_at.year) ++ "-" ++
      String.mk (padw 2 t.created_at.month) ++ "-" ++
      String.mk (padw 2 t.created_at.day) ++ "_" ++ t.short_id ++ ".json",
    shortName := t.short_id,
    doc := transcriptToDict t }

/-- The full transcript ID recorded in a stored document
(`data.get("transcript_id", "")`). -/
def storedFullId (f : StoredFile) : String :=
  match f.doc with
  | .obj fields =>
    match jsonGet "transcript_id" fields with
    | some (.str s) => s
    | _ => ""
  | _ => ""

/-- Python `str.startswith`: a character-level prefix check. -/
def pyStartsWith (s pre : String) : Bool :=
  decide (s.data.take pre.data.length = pre.data)

/-- `_find_transcript_files`: filename short-ID prefix match against the
first 8 characters of the query, confirmed against the full ID inside the
file. -/
def findTranscriptFiles (tid : String) (store : List StoredFile) : List StoredFile :=
  store.filter fun f =>
    pyStartsWith f.shortName (pyTakeStr tid 8) && pyStartsWith (storedFullId f) tid

/-- Failures of `load_transcript`: the `Ambiguous` `ValueError` (carrying
the matching filenames), or an exception escaping
`_parse_transcript_file`. -/
inductive LoadErr where
  | ambiguous (names : List String) : LoadErr
  | parseFailure : LoadErr
deriving DecidableEq

/-- `load_transcript` from `transcript.py`: no match returns `none`,
multiple matches raise `Ambiguous`, a single match is fully
deserialized.  There is no minimum-length check on `tid` here. -/
def loadTranscript (now : PyDateTime) (tid : String) (store : List StoredFile) :
    Except LoadErr (Option DebateTranscript) :=
  match findTranscriptFiles tid store with
  | [] => .ok none
  | [f] =>
    match parseTranscript now f.doc with
    | some t => .ok (some t)
    | none => .error .parseFailure
  | fs => .error (.ambiguous (fs.map fun f => f.fileName))

/-- The guard at the top of the CLI `show` and `replay` commands
(`cli.py`): IDs shorter than 4 characters print an error and exit with
status 1 before `load_transcript` is ever called. -/
inductive CliPrecheck where
  | exitError (msg : String) : CliPrecheck
  | proceed (tid : String) : CliPrecheck
deriving DecidableEq

/-- `len(transcript_id) < 4` check from `cli.py` `show`/`replay`. -/
def cliShortIdPrecheck (tid : String) : CliPrecheck :=
  if tid.length < 4 then
    .exitError "Transcript ID must be at least 4 characters."
  else .proceed tid

/-! ## Theorems -/

/-- The clamp `max(1, min(5, n))` lands in `[1, 5]`. -/
theorem clamp15_bounds (n : Int) :
    1 ≤ pyMaxInt 1 (pyMinInt 5 n) ∧ pyMaxInt 1 (pyMinInt 5 n) ≤ 5 := by
  unfold pyMaxInt pyMinInt
  split <;> split <;> omega

/-- Claim C4: `parse_score_response` extracts case-insensitive ACCURACY
and COMPLETENESS integer fields and an EXPLANATION tail from arbitrary
judge text, clamping both scores into `[1, 5]`; it fails with
`UnparseableScore` (`ValueError`) iff the accuracy or completeness field
is missing or non-numeric; `score_synthesis` sets the overall score to
the arithmetic mean of the two clamped scores, and on parse failure
returns accuracy = completeness = overall = −1 with an explanatory
message instead of raising; and the judge text
`"ACCURACY: 7\nCOMPLETENESS: 0\nEXPLANATION: bad"` parses to accuracy 5,
completeness 1, overall 3.0, explanation `"bad"`. -/
theorem claim_C4 (judge content : String) :
    ((∃ msg, parse_score_response content = .error msg) ↔
      (searchKeyToken "accuracy".data content.data = none ∨
       (∃ tok, searchKeyToken "accuracy".data content.data = some tok ∧
               pyParseInt tok = none) ∨
       searchKeyToken "completeness".data content.data = none ∨
       (∃ tok, searchKeyToken "completeness".data content.data = some tok ∧
               pyParseInt tok = none))) ∧
    (∀ a c e, parse_score_response content = .ok (a, c, e) →
      (1 ≤ a ∧ a ≤ 5 ∧ 1 ≤ c ∧ c ≤ 5 ∧
       score_synthesis_result judge content =
         { accuracy := a, completeness := c, overall := ((a + c : Int) : Rat) / 2,
           explanation := e, judge_model := judge })) ∧
    (∀ msg, parse_score_response content = .error msg →
      score_synthesis_result judge content =
        { accuracy := -1, completeness := -1, overall := -1,
          explanation := "Judge output could not be parsed: " ++ content,
          judge_model := judge }) ∧
    (parse_score_response "ACCURACY: 7\nCOMPLETENESS: 0\nEXPLANATION: bad" =
      .ok (5, 1, "bad") ∧
     score_synthesis_result "j" "ACCURACY: 7\nCOMPLETENESS: 0\nEXPLANATION: bad" =
       { accuracy := 5, completeness := 1, overall := 3, explanation := "bad",
         judge_model := "j" } ∧
     parse_score_response "accuracy: 2\ncompleteness: 4\nExplanation: line one\nline two" =
       .ok (2, 4, "line one\nline two")) := by
  refine ⟨?_, ?_, ?_, ?_⟩
  · -- failure characterization
    cases ha : searchKeyToken "accuracy".data content.data with
    | none =>
      have hres : parse_score_response content =
          .error "Missing ACCURACY field in judge response" := by
        unfold parse_score_response
        simp only [ha]
      exact ⟨fun _ => Or.inl rfl, fun _ => ⟨_, hres⟩⟩
    | some tok =>
      cases hp : pyParseInt tok with
      | none =>
        have hres : parse_score_response content =
            .error ("Non-numeric ACCURACY value: " ++ String.mk tok) := by
          unfold parse_score_response
          simp only [ha, hp]
        exact ⟨fun _ => Or.inr (Or.inl ⟨tok, rfl, hp⟩), fun _ => ⟨_, hres⟩⟩
      | some n =>
        cases hc : searchKeyToken "completeness".data content.data with
        | none =>
          have hres : parse_score_response content =
              .error "Missing COMPLETENESS field in judge response" := by
            unfold parse_score_response
            simp only [ha, hp, hc]
          exact ⟨fun _ => Or.inr (Or.inr (Or.inl rfl)), fun _ => ⟨_, hres⟩⟩
        | some tok2 =>
          cases hp2 : pyParseInt tok2 with
          | none =>
            have hres : parse_score_response content =
                .error ("Non-numeric COMPLETENESS value: " ++ String.mk tok2) := by
              unfold parse_score_response
              simp only [ha, hp, hc, hp2]
            exact ⟨fun _ => Or.inr (Or.inr (Or.inr ⟨tok2, rfl, hp2⟩)),
                   fun _ => ⟨_, hres⟩⟩
          | some m =>
            have hres : parse_score_response content =
                .ok (pyMaxInt 1 (pyMinInt 5 n), pyMaxInt 1 (pyMinInt 5 m),
                     match searchKeyRest "explanation".data content.data with
                     | some rest => String.mk (pyStripList rest)
                     | none => "") := by
              unfold parse_score_response
              simp only [ha, hp, hc, hp2]
            constructor
            · rintro ⟨msg, hmsg⟩
              rw [hres] at hmsg
              exact absurd hmsg (by simp)
            · rintro (h | ⟨tok3, h3, h4⟩ | h | ⟨tok3, h3, h4⟩)
              · exact Option.noConfusion h
              · obtain rfl : tok = tok3 := Option.some.inj h3
                exact absurd (hp.symm.trans h4) (by simp)
              · exact Option.noConfusion h
              · obtain rfl : tok2 = tok3 := Option.some.inj h3
                exact absurd (hp2.symm.trans h4) (by simp)
  · -- success: bounds and the mean of the clamped scores
    intro a c e h
    have h0 := h
    unfold parse_score_response at h
    cases ha : searchKeyToken "accuracy".data content.data with
    | none =>
      simp only [ha] at h
      exact absurd h (by simp)
    | some tok =>
    simp only [ha] at h
    cases hp : pyParseInt tok with
    | none =>
      simp only [hp] at h
      exact absurd h (by simp)
    | some n =>
    simp only [hp] at h
    cases hc : searchKeyToken "completeness".data content.data with
    | none =>
      simp only [hc] at h
      exact absurd h (by simp)
    | some tok2 =>
    simp only [hc] at h
    cases hp2 : pyParseInt tok2 with
    | none =>
      simp only [hp2] at h
      exact absurd h (by simp)
    | some m =>
    simp only [hp2, Except.ok.injEq, Prod.mk.injEq] at h
    obtain ⟨hae, hce, hee⟩ := h
    subst hae
    subst hce
    refine ⟨(clamp15_bounds n).1, (clamp15_bounds n).2,
            (clamp15_bounds m).1, (clamp15_bounds m).2, ?_⟩
    unfold score_synthesis_result
    rw [h0]
  · -- failure: the −1 marker
    intro msg h
    unfold score_synthesis_result
    rw [h]
  · -- the concrete scenario from the spec
    refine ⟨by rfl, ?_, by rfl⟩
    have hp : parse_score_response "ACCURACY: 7\nCOMPLETENESS: 0\nEXPLANATION: bad" =
        .ok (5, 1, "bad") := by rfl
    unfold score_synthesis_result
    rw [hp]
    have h3 : ((5 + 1 : Int) : Rat) / 2 = 3 := by norm_num
    simp only [h3]

/-- Witness for C4: the clamp-and-mean conjunct applied at the concrete
judge response, with the parse hypothesis discharged by `rfl`. -/
theorem claim_C4_witness :
    1 ≤ (5 : Int) ∧ (5 : Int) ≤ 5 ∧ 1 ≤ (1 : Int) ∧ (1 : Int) ≤ 5 ∧
    score_synthesis_result "j" "ACCURACY: 7\nCOMPLETENESS: 0\nEXPLANATION: bad" =
      { accuracy := 5, completeness := 1, overall := ((5 + 1 : Int) : Rat) / 2,
        explanation := "bad", judge_model := "j" } :=
  (claim_C4 "j" "ACCURACY: 7\nCOMPLETENESS: 0\nEXPLANATION: bad").2.1 5 1 "bad" (by rfl)

/-- A string starting with a nonempty prefix is nonempty. -/
theorem str_append_ne_empty (a b : String) (ha : a.length ≠ 0) : a ++ b ≠ "" := by
  intro h
  have h2 := congrArg String.length h
  rw [String.length_append] at h2
  simp only [String.length_empty] at h2
  omega

/-- Claim C3 counterexample: inside an open scope, a non-timeout
transport/connection error (`httpx.ConnectError`) makes
`OpenRouterProvider.complete` raise instead of returning an error-bearing
`ModelResponse` — only `httpx.TimeoutException` is caught. -/
theorem claim_C3_counterexample :
    openRouterComplete "openai/gpt-5.2" "gpt" 0 120 .connectError 5
      ⟨2026, 2, 21, 0, 0, 0, 0⟩ = .error .transport := by
  rfl

/-- Claim C3 as amended: for a call inside an open scope, a request
timeout or a non-200 HTTP status never raises — the call returns a
`ModelResponse` whose error field is a non-empty description, whose
content is the empty string, and whose `latency_ms` is the elapsed wall
time of the attempt; but a non-timeout transport/connection error is not
caught and propagates as an exception. -/
theorem claim_C3_amended (model_id model_alias : String) (rn : Int)
    (timeout : Rat) (elapsed : Int) (ts : PyDateTime) :
    (∃ r, openRouterComplete model_id model_alias rn timeout .timeout elapsed ts = .ok r ∧
       r.error = some ("Request timed out after " ++ floatRepr timeout ++ "s") ∧
       (∀ s, r.error = some s → s ≠ "") ∧
       r.content = "" ∧ r.latency_ms = some elapsed) ∧
    (∀ resp : HttpResp, resp.status ≠ 200 →
       ∃ r, openRouterComplete model_id model_alias rn timeout (.response resp) elapsed ts = .ok r ∧
         r.error = some ("HTTP " ++ toString resp.status ++ ": " ++ extract_error resp) ∧
         (∀ s, r.error = some s → s ≠ "") ∧
         r.content = "" ∧ r.latency_ms = some elapsed) ∧
    openRouterComplete model_id model_alias rn timeout .connectError elapsed ts =
      .error .transport := by
  refine ⟨⟨_, rfl, rfl, ?_, rfl, rfl⟩, ?_, rfl⟩
  · intro s hs
    obtain rfl := Option.some.inj hs
    exact str_append_ne_empty "Request timed out after " _ (by decide)
  · intro resp hstatus
    have hres : openRouterComplete model_id model_alias rn timeout
        (.response resp) elapsed ts =
        .ok { model_id := model_id,
              model_alias := if model_alias = "" then lastSlashComponent model_id
                             else model_alias,
              round_number := rn, content := "", timestamp := ts,
              token_count := none, input_tokens := none, output_tokens := none,
              latency_ms := some elapsed,
              error := some ("HTTP " ++ toString resp.status ++ ": " ++ extract_error resp),
              role := "", routing := none, analysis := [] } := by
      unfold openRouterComplete
      simp only [if_pos hstatus]
    refine ⟨_, hres, rfl, ?_, rfl, rfl⟩
    intro s hs
    obtain rfl := Option.some.inj hs
    exact str_append_ne_empty "HTTP " _ (by decide)

/-- Witness for the amended C3: a concrete 500 response and a concrete
timeout, hypotheses discharged by `decide`. -/
theorem claim_C3_amended_witness :
    (500 : Int) ≠ 200 ∧
    (∃ r, openRouterComplete "openai/gpt-5.2" "gpt" 0 120
        (.response ⟨500, none, "boom"⟩) 7 ⟨2026, 2, 21, 0, 0, 0, 0⟩ = .ok r ∧
       r.error = some ("HTTP " ++ toString (500 : Int) ++ ": " ++
         extract_error ⟨500, none, "boom"⟩) ∧
       (∀ s, r.error = some s → s ≠ "") ∧
       r.content = "" ∧ r.latency_ms = some 7) :=
  ⟨by decide,
   (claim_C3_amended "openai/gpt-5.2" "gpt" 0 120 7 ⟨2026, 2, 21, 0, 0, 0, 0⟩).2.1
     ⟨500, none, "boom"⟩ (by decide)⟩

/-- A concrete successful response, used in concrete scenarios. -/
def exResponse : ModelResponse :=
  { model_id := "openai/gpt-5.2", model_alias := "gpt", round_number := 0,
    content := "hi", timestamp := ⟨2026, 2, 21, 3, 4, 5, 0⟩, token_count := some 3,
    input_tokens := none, output_tokens := none, latency_ms := some 5,
    error := none, role := "initial", routing := none, analysis := [] }

/-- A concrete stored transcript, used in concrete scenarios. -/
def exTranscript : DebateTranscript :=
  { transcript_id := "abcd1234-5678", query := "q", panel := ["gpt"],
    synthesizer_id := "gpt", max_rounds := 1,
    rounds := [⟨0, "initial", [exResponse]⟩], synthesis := none,
    created_at := ⟨2026, 2, 21, 3, 4, 5, 6⟩, metadata := [] }

/-- Claim C8 counterexample: `load_transcript` applies no minimum-length
check — with one stored transcript, the one-character prefix `"a"`
(shorter than 4) succeeds and returns the transcript instead of failing
with `BadArguments`. -/
theorem claim_C8_counterexample :
    "a".length < 4 ∧
    loadTranscript ⟨2020, 1, 1, 0, 0, 0, 0⟩ "a" [saveTranscript exTranscript] =
      .ok (some exTranscript) := by
  exact ⟨by decide, by rfl⟩

/-- Claim C8 as amended: `load_transcript`, given a full transcript ID or
an ID prefix, returns absent when no stored transcript matches, fails
with `Ambiguous` when more than one matches, and returns the single
fully deserialized transcript when exactly one matches; `load_transcript`
itself accepts prefixes of any length — the at-least-4-characters check
(`BadArguments`) is enforced by the CLI `show`/`replay` commands before
`load_transcript` is called. -/
theorem claim_C8_amended (now : PyDateTime) (tid : String) (store : List StoredFile) :
    (findTranscriptFiles tid store = [] →
      loadTranscript now tid store = .ok none) ∧
    (∀ f fs, findTranscriptFiles tid store = f :: fs → fs ≠ [] →
      loadTranscript now tid store =
        .error (.ambiguous ((f :: fs).map fun g => g.fileName))) ∧
    (∀ f, findTranscriptFiles tid store = [f] →
      loadTranscript now tid store =
        (match parseTranscript now f.doc with
         | some t => .ok (some t)
         | none => .error .parseFailure)) ∧
    (tid.length < 4 →
      cliShortIdPrecheck tid = .exitError "Transcript ID must be at least 4 characters.") := by
  refine ⟨?_, ?_, ?_, ?_⟩
  · intro h
    unfold loadTranscript
    rw [h]
  · intro f fs h hne
    unfold loadTranscript
    rw [h]
    cases fs with
    | nil => exact absurd rfl hne
    | cons g gs => rfl
  · intro f h
    unfold loadTranscript
    rw [h]
  · intro h
    unfold cliShortIdPrecheck
    rw [if_pos h]

/-- Witness for the amended C8: the zero-match case on an empty store and
the CLI guard on a 1-character ID, hypotheses discharged by `rfl` and
`decide`. -/
theorem claim_C8_amended_witness :
    loadTranscript ⟨2020, 1, 1, 0, 0, 0, 0⟩ "abcd" [] = .ok none ∧
    cliShortIdPrecheck "a" = .exitError "Transcript ID must be at least 4 characters." :=
  ⟨(claim_C8_amended ⟨2020, 1, 1, 0, 0, 0, 0⟩ "abcd" []).1 (by rfl),
   (claim_C8_amended ⟨2020, 1, 1, 0, 0, 0, 0⟩ "a" []).2.2.2 (by decide)⟩

/-- The alias-indexed dict of previous responses keeps the last response
for each alias: folding left with overwrite equals the last filtered
element. -/
theorem responseMapGet_eq_getLast (a : String) (prev : List ModelResponse) :
    ∀ acc : Option ModelResponse,
      prev.foldl (fun acc r => if r.model_alias = a then some r else acc) acc =
        match (prev.filter fun r => r.model_alias == a).getLast? with
        | some r => some r
        | none => acc := by
  induction prev using List.reverseRecOn with
  | nil =>
    intro acc
    simp
  | append_singleton l r IH =>
    intro acc
    rw [List.foldl_append, List.filter_append]
    by_cases hr : r.model_alias = a
    · simp only [List.foldl_cons, List.foldl_nil, if_pos hr, List.filter_cons,
        List.filter_nil]
      rw [if_pos (by simpa using hr)]
      rw [List.getLast?_concat]
    · simp only [List.foldl_cons, List.foldl_nil, if_neg hr, List.filter_cons,
        List.filter_nil]
      rw [if_neg (by simpa using hr), List.append_nil]
      exact IH acc

/-- Claim C6: for every reflection round, the prompt built for a panelist
with alias `a` is assembled from the previous round's responses so that
the peer blocks are exactly the non-errored previous responses whose
alias differs from `a`, labelled by alias; `a`'s own previous response is
replaced by a placeholder when it is missing or errored; and when the
panel contains duplicate aliases, the last previous response bearing
alias `a` is used as `a`'s own-previous reference. -/
theorem claim_C6 (query : String) (panel_aliases : List String)
    (prev : List ModelResponse) (rn : Int)
    (pctx : Option (List (String × String))) :
    (reflectionRequests query panel_aliases prev rn pctx =
      panel_aliases.map fun a =>
        { alias_or_id := a,
          prompt := injectContext
            (format_reflection query (reflectionOwnText prev a) (reflectionOthers prev a))
            a pctx,
          model_alias := a, round_number := rn }) ∧
    (∀ a, reflectionOthers prev a =
      (prev.filter fun r => r.model_alias ≠ a && !erroredResponse r).map
        fun r => (r.model_alias, r.content)) ∧
    (∀ a, responseMapGet prev a =
      (prev.filter fun r => r.model_alias == a).getLast?) ∧
    (∀ a, reflectionOwnText prev a =
      match (prev.filter fun r => r.model_alias == a).getLast? with
      | some own => if erroredResponse own then "[No response available]"
                    else own.content
      | none => "[No response available]") := by
  have hmap : ∀ a, responseMapGet prev a =
      (prev.filter fun r => r.model_alias == a).getLast? := by
    intro a
    unfold responseMapGet
    rw [responseMapGet_eq_getLast a prev none]
    cases (prev.filter fun r => r.model_alias == a).getLast? <;> rfl
  refine ⟨rfl, fun a => rfl, hmap, ?_⟩
  intro a
  unfold reflectionOwnText
  rw [hmap a]

/-- Witness for C6 is not separate: the theorem has no hypotheses. -/
theorem claim_C6_concrete :
    reflectionOwnText
      [{ exResponse with model_alias := "gpt", content := "first" },
       { exResponse with model_alias := "claude", content := "peer" },
       { exResponse with model_alias := "gpt", content := "second" }] "gpt" = "second" ∧
    reflectionOthers
      [{ exResponse with model_alias := "gpt", content := "first" },
       { exResponse with model_alias := "claude", content := "peer" },
       { exResponse with model_alias := "gpt", content := "second",
                         error := some "boom" }] "gpt" = [("claude", "peer")] := by
  exact ⟨by rfl, by rfl⟩

/-- Invariant of the `_compute_stats` accumulation loop: running totals
are the list sums, and the any-cost flag tracks whether any response
yielded a cost. -/
theorem statsStep_fold (pricing : String → Option ModelPricing) :
    ∀ (l : List ModelResponse) (acc : StatsAcc),
      (l.foldl (statsStep pricing) acc).total_tokens =
        acc.total_tokens + (l.map fun r => r.token_count.getD 0).sum ∧
      (l.foldl (statsStep pricing) acc).total_cost =
        acc.total_cost +
          (l.filterMap fun r => compute_response_cost r (pricing r.model_id)).sum ∧
      (l.foldl (statsStep pricing) acc).has_any_cost =
        (acc.has_any_cost ||
          !(l.filterMap fun r => compute_response_cost r (pricing r.model_id)).isEmpty) := by
  intro l
  induction l with
  | nil =>
    intro acc
    simp
  | cons r l IH =>
    intro acc
    simp only [List.foldl_cons, List.map_cons, List.sum_cons, List.filterMap_cons]
    obtain ⟨IH1, IH2, IH3⟩ := IH (statsStep pricing acc r)
    cases hc : compute_response_cost r (pricing r.model_id) with
    | none =>
      refine ⟨?_, ?_, ?_⟩
      · rw [IH1]
        simp only [statsStep, hc]
        ring
      · rw [IH2]
        simp only [statsStep, hc, Option.getD_none, add_zero]
      · rw [IH3]
        simp only [statsStep, hc, Option.isSome_none, Bool.or_false]
    | some c =>
      refine ⟨?_, ?_, ?_⟩
      · rw [IH1]
        simp only [statsStep, hc]
        ring
      · rw [IH2]
        simp only [statsStep, hc, Option.getD_some, List.sum_cons]
        ring
      · rw [IH3]
        simp only [statsStep, hc, Option.isSome_some, Bool.or_true, Bool.true_or,
          List.isEmpty_cons, Bool.not_false]

/-- Claim C7: `metadata.stats` at the end of a debate satisfies:
`total_tokens` is the sum of non-absent `token_count` values over all
responses in all rounds plus the synthesis response; each response's cost
is `input_tokens × prompt_price + output_tokens × completion_price`,
present exactly when both token counts and the pricing are present; and
`total_cost_usd` is the sum of the per-response costs when at least one
response yielded a cost, and absent (not zero) when none did. -/
theorem claim_C7 (t : DebateTranscript) (pricing : String → Option ModelPricing) :
    ((computeStats t pricing).total_tokens =
      ((allResponses t).map fun r => r.token_count.getD 0).sum) ∧
    (∀ (r : ModelResponse) (p : Option ModelPricing),
      ((compute_response_cost r p).isSome ↔
        (p.isSome ∧ r.input_tokens.isSome ∧ r.output_tokens.isSome)) ∧
      (∀ pr i o, p = some pr → r.input_tokens = some i → r.output_tokens = some o →
        compute_response_cost r p =
          some ((i : Rat) * pr.prompt_price + (o : Rat) * pr.completion_price))) ∧
    ((computeStats t pricing).total_cost_usd =
      if ((allResponses t).filterMap fun r =>
            compute_response_cost r (pricing r.model_id)) = [] then none
      else some ((allResponses t).filterMap fun r =>
             compute_response_cost r (pricing r.model_id)).sum) := by
  obtain ⟨h1, h2, h3⟩ := statsStep_fold pricing (allResponses t) ⟨0, 0, false, []⟩
  refine ⟨?_, ?_, ?_⟩
  · show ((allResponses t).foldl (statsStep pricing) ⟨0, 0, false, []⟩).total_tokens = _
    rw [h1]
    ring
  · intro r p
    constructor
    · unfold compute_response_cost
      cases p with
      | none => simp
      | some pr =>
        cases hi : r.input_tokens <;> cases ho : r.output_tokens <;> simp
    · intro pr i o hp hi ho
      subst hp
      unfold compute_response_cost
      rw [hi, ho]
  · show (if ((allResponses t).foldl (statsStep pricing) ⟨0, 0, false, []⟩).has_any_cost
          then some ((allResponses t).foldl (statsStep pricing) ⟨0, 0, false, []⟩).total_cost
          else none) = _
    rw [h2, h3]
    simp only [Bool.false_or, zero_add]
    cases hl : ((allResponses t).filterMap fun r =>
        compute_response_cost r (pricing r.model_id)) with
    | nil => simp
    | cons c cs => simp

/-- Witness for C7: the per-response cost formula applied at a concrete
response and pricing, hypotheses discharged by `rfl`. -/
theorem claim_C7_witness :
    compute_response_cost
        { exResponse with input_tokens := some 10, output_tokens := some 20 }
        (some ⟨2, 3, none⟩) =
      some ((10 : Rat) * (2 : Rat) + (20 : Rat) * (3 : Rat)) :=
  ((claim_C7 exTranscript fun _ => none).2.1
      { exResponse with input_tokens := some 10, output_tokens := some 20 }
      (some ⟨2, 3, none⟩)).2 ⟨2, 3, none⟩ 10 20 rfl rfl rfl

/-- `padw` always renders exactly `w` characters. -/
theorem padw_length (w n : Nat) : (padw w n).length = w := by
  induction w generalizing n with
  | zero => rfl
  | succ v IH => simp [padw, IH]

theorem digitChar_facts : ∀ k < 10,
    ('0' ≤ Char.ofNat (k + 48) ∧ Char.ofNat (k + 48) ≤ '9') ∧
    (Char.ofNat (k + 48)).toNat - 48 = k := by
  decide

theorem readFixed_padw (w : Nat) :
    ∀ (n acc : Nat) (rest : List Char), n < 10 ^ w →
      readFixed w acc (padw w n ++ rest) = some (acc * 10 ^ w + n, rest) := by
  induction w with
  | zero =>
    intro n acc rest hn
    interval_cases n
    simp [padw, readFixed]
  | succ v IH =>
    intro n acc rest hn
    have hd : n / 10 ^ v % 10 < 10 := Nat.mod_lt _ (by norm_num)
    obtain ⟨⟨hc1, hc2⟩, hc3⟩ := digitChar_facts (n / 10 ^ v % 10) hd
    have hmod : n % 10 ^ v < 10 ^ v := Nat.mod_lt _ (Nat.pos_pow_of_pos v (by norm_num))
    simp only [padw, List.cons_append]
    unfold readFixed
    rw [if_pos (And.intro hc1 hc2), hc3]
    rw [IH (n % 10 ^ v) _ rest hmod]
    have hdivlt : n / 10 ^ v < 10 := by
      rw [Nat.div_lt_iff_lt_mul (Nat.pos_pow_of_pos v (by norm_num))]
      calc n < 10 ^ (v + 1) := hn
        _ = 10 * 10 ^ v := by ring
    have hdm : n / 10 ^ v % 10 = n / 10 ^ v := Nat.mod_eq_of_lt hdivlt
    have hsplit : 10 ^ v * (n / 10 ^ v) + n % 10 ^ v = n := Nat.div_add_mod n (10 ^ v)
    have harith : (acc * 10 + n / 10 ^ v % 10) * 10 ^ v + n % 10 ^ v =
        acc * 10 ^ (v + 1) + n := by
      rw [hdm]
      calc (acc * 10 + n / 10 ^ v) * 10 ^ v + n % 10 ^ v
          = acc * (10 ^ v * 10) + (10 ^ v * (n / 10 ^ v) + n % 10 ^ v) := by ring
        _ = acc * 10 ^ (v + 1) + n := by rw [hsplit]; ring
    rw [harith]

theorem readFixed_padw0 (w n : Nat) (rest : List Char) (h : n < 10 ^ w) :
    readFixed w 0 (padw w n ++ rest) = some (n, rest) := by
  rw [readFixed_padw w n 0 rest h]
  norm_num

theorem pyIsoformat_ne_empty (d : PyDateTime) : pyIsoformat d ≠ "" := by
  intro h
  have h2 : (pyIsoformat d).data = [] := by rw [h]
  unfold pyIsoformat at h2
  have h3 := congrArg List.length h2
  simp [padw_length] at h3

theorem iso_roundtrip (d : PyDateTime) (hv : d.valid) :
    pyFromIsoformat (pyIsoformat d) = some d := by
  obtain ⟨h1, h2, h3, h4, h5, h6, h7, h8, h9, h10⟩ := hv
  have hy : d.year < 10 ^ 4 := by omega
  have hmo : d.month < 10 ^ 2 := by omega
  have hda : d.day < 10 ^ 2 := by omega
  have hh : d.hour < 10 ^ 2 := by omega
  have hmi : d.minute < 10 ^ 2 := by omega
  have hs : d.second < 10 ^ 2 := by omega
  have hdata : (pyIsoformat d).data =
      padw 4 d.year ++ '-' :: (padw 2 d.month ++ '-' :: (padw 2 d.day ++
        'T' :: (padw 2 d.hour ++ ':' :: (padw 2 d.minute ++ ':' :: (padw 2 d.second ++
        ((if d.microsecond = 0 then [] else '.' :: padw 6 d.microsecond) ++
         ['+', '0', '0', ':', '0', '0'])))))) := by
    show (padw 4 d.year ++ '-' :: padw 2 d.month ++ '-' :: padw 2 d.day ++
       'T' :: padw 2 d.hour ++ ':' :: padw 2 d.minute ++ ':' :: padw 2 d.second ++
       (if d.microsecond = 0 then [] else '.' :: padw 6 d.microsecond) ++
       ('+' :: '0' :: '0' :: ':' :: '0' :: '0' :: [])) = _
    simp [List.append_assoc]
  unfold pyFromIsoformat
  rw [hdata]
  rw [readFixed_padw0 4 d.year _ hy]
  simp only [expectChar, if_pos]
  rw [readFixed_padw0 2 d.month _ hmo]
  simp only [expectChar, if_pos]
  rw [readFixed_padw0 2 d.day _ hda]
  simp only [expectChar, if_pos]
  rw [readFixed_padw0 2 d.hour _ hh]
  simp only [expectChar, if_pos]
  rw [readFixed_padw0 2 d.minute _ hmi]
  simp only [expectChar, if_pos]
  rw [readFixed_padw0 2 d.second _ hs]
  unfold isoReadTail
  by_cases hm : d.microsecond = 0
  · rw [if_pos hm]
    simp only [List.nil_append]
    show (if 0 < d.year ∧ 0 < d.month ∧ d.month ≤ 12 ∧ 0 < d.day ∧ d.day ≤ 31 ∧
           d.hour ≤ 23 ∧ d.minute ≤ 59 ∧ d.second ≤ 59 then
         some (⟨d.year, d.month, d.day, d.hour, d.minute, d.second, 0⟩ : PyDateTime)
       else none) = some d
    rw [if_pos (by omega)]
    rw [← hm]
  · rw [if_neg hm]
    simp only [List.cons_append]
    rw [readFixed_padw0 6 d.microsecond _ (by omega)]
    show (if 0 < d.year ∧ 0 < d.month ∧ d.month ≤ 12 ∧ 0 < d.day ∧ d.day ≤ 31 ∧
           d.hour ≤ 23 ∧ d.minute ≤ 59 ∧ d.second ≤ 59 then
         some (⟨d.year, d.month, d.day, d.hour, d.minute, d.second, d.microsecond⟩ : PyDateTime)
       else none) = some d
    rw [if_pos (by omega)]

end MutualDissent
namespace MutualDissent

theorem parseDatetime_iso (now d : PyDateTime) (hv : d.valid) :
    parseDatetime now (some (pyIsoformat d)) = d := by
  show (if pyIsoformat d = "" then now else (pyFromIsoformat (pyIsoformat d)).getD now) = d
  rw [if_neg (pyIsoformat_ne_empty d), iso_roundtrip d hv]
  rfl

/-- `responseValid`: what the program guarantees of every in-memory
response it serializes. -/
def responseValid (r : ModelResponse) : Prop :=
  r.timestamp.valid ∧ r.routing ≠ some .null

theorem response_roundtrip (now : PyDateTime) (r : ModelResponse)
    (hv : responseValid r) :
    parseResponse now (responseToDict r) = some r := by
  obtain ⟨hts, hrt⟩ := hv
  obtain ⟨mid, mal, rn, ct, ts, tc, it, ot, lm, er, role, routing, analysis⟩ := r
  simp only [ModelResponse.timestamp] at hts
  simp only [ModelResponse.routing] at hrt
  have hiso := parseDatetime_iso now ts hts
  simp only [parseResponse, responseToDict, jsonGet, jsonOptIntField, jsonOptStrField,
    optIntJson, optStrJson, Rat.den_intCast, Rat.num_intCast]
  cases tc <;> cases it <;> cases ot <;> cases lm <;> cases er <;>
    cases routing <;>
    simp_all [parseDatetime_iso, Rat.den_intCast, Rat.num_intCast]

end MutualDissent

namespace MutualDissent

theorem responses_roundtrip (now : PyDateTime) :
    ∀ l : List ModelResponse, (∀ r ∈ l, responseValid r) →
      (l.map responseToDict).mapM (parseResponse now) = some l := by
  intro l
  induction l with
  | nil => intro _; rfl
  | cons r rest IH =>
    intro h
    simp only [List.map_cons, List.mapM_cons]
    rw [response_roundtrip now r (h r (by simp))]
    rw [IH fun x hx => h x (by simp [hx])]
    rfl

theorem round_roundtrip (now : PyDateTime) (rd : DebateRound)
    (hv : ∀ r ∈ rd.responses, responseValid r) :
    parseRound now (roundToDict rd) = some rd := by
  obtain ⟨rn, rt, resps⟩ := rd
  simp only [DebateRound.responses] at hv
  simp only [roundToDict, parseRound, jsonGet, String.reduceEq, reduceIte,
    Rat.den_intCast, Rat.num_intCast, responses_roundtrip now resps hv]

theorem rounds_roundtrip (now : PyDateTime) :
    ∀ l : List DebateRound, (∀ rd ∈ l, ∀ r ∈ rd.responses, responseValid r) →
      (l.map roundToDict).mapM (parseRound now) = some l := by
  intro l
  induction l with
  | nil => intro _; rfl
  | cons rd rest IH =>
    intro h
    simp only [List.map_cons, List.mapM_cons]
    rw [round_roundtrip now rd (h rd (by simp))]
    rw [IH fun x hx => h x (by simp [hx])]
    rfl

theorem panel_roundtrip :
    ∀ l : List String,
      (l.map Json.str).mapM (fun pj =>
        match pj with
        | Json.str s => some s
        | _ => none) = some l := by
  intro l
  induction l with
  | nil => rfl
  | cons s rest IH =>
    simp only [List.map_cons, List.mapM_cons]
    rw [IH]
    rfl

/-- Whether a JSON value triggers the experiment reconstitution. -/
def isExperimentLike : Json → Bool
  | .obj efs => (jsonGet "experiment_id" efs).isSome
  | _ => false

/-- What the program guarantees of a metadata entry it stores: the
`ExperimentMetadata` object sits only under the `"experiment"` key, and a
raw JSON value under `"experiment"` is never a dict carrying
`"experiment_id"`. -/
def metaEntryValid : String × MetaVal → Prop
  | (k, .mexp _) => k = "experiment"
  | (k, .mjson j) => k = "experiment" → isExperimentLike j = false

theorem parseMetaEntry_exp (e : ExperimentMetadata) :
    parseMetaEntry ("experiment", metaValToDict (.mexp e)) =
      some ("experiment", .mexp e) := by
  obtain ⟨eid, st, cid, cond, vars, fr⟩ := e
  simp only [metaValToDict, experimentToDict, parseMetaEntry, expFromDict, jsonGet,
    optStrJson, String.reduceEq, reduceIte, Option.isSome_some]
  cases cid <;> cases fr <;> simp

theorem parseMetaEntry_roundtrip (kv : String × MetaVal) (hv : metaEntryValid kv) :
    parseMetaEntry (kv.1, metaValToDict kv.2) = some kv := by
  obtain ⟨k, v⟩ := kv
  cases v with
  | mexp e =>
    have hk : k = "experiment" := hv
    subst hk
    exact parseMetaEntry_exp e
  | mjson j =>
    simp only [metaValToDict, parseMetaEntry]
    by_cases hk : k = "experiment"
    · rw [if_pos hk]
      cases j with
      | obj efs =>
        have hlike : isExperimentLike (.obj efs) = false := hv hk
        simp only [isExperimentLike] at hlike
        simp [hlike]
      | null => rfl
      | bool b => rfl
      | num q => rfl
      | str s => rfl
      | arr xs => rfl
    · rw [if_neg hk]

theorem metadata_roundtrip :
    ∀ l : List (String × MetaVal), (∀ kv ∈ l, metaEntryValid kv) →
      ((l.map fun kv => (kv.1, metaValToDict kv.2)).mapM parseMetaEntry) = some l := by
  intro l
  induction l with
  | nil => intro _; rfl
  | cons kv rest IH =>
    intro h
    simp only [List.map_cons, List.mapM_cons]
    rw [parseMetaEntry_roundtrip kv (h kv (by simp))]
    rw [IH fun x hx => h x (by simp [hx])]
    rfl

/-- What the program guarantees of every transcript it serializes:
valid construction timestamps, no `some null` routing value, and
metadata entries as `metaEntryValid` describes. -/
def transcriptValid (t : DebateTranscript) : Prop :=
  t.created_at.valid ∧
  (∀ rd ∈ t.rounds, ∀ r ∈ rd.responses, responseValid r) ∧
  (∀ s, t.synthesis = some s → responseValid s) ∧
  (∀ kv ∈ t.metadata, metaEntryValid kv)

theorem transcript_roundtrip (now : PyDateTime) (t : DebateTranscript)
    (hv : transcriptValid t) :
    parseTranscript now (transcriptToDict t) = some t := by
  obtain ⟨hca, hrounds, hsyn, hmeta⟩ := hv
  obtain ⟨tid, q, panel, sid, mr, rounds, synthesis, created, metadata⟩ := t
  simp only [DebateTranscript.created_at] at hca
  simp only [DebateTranscript.rounds] at hrounds
  simp only [DebateTranscript.synthesis] at hsyn
  simp only [DebateTranscript.metadata] at hmeta
  have hdt := parseDatetime_iso now created hca
  cases synthesis with
  | none =>
    simp only [transcriptToDict, parseTranscript, jsonGet, String.reduceEq, reduceIte,
      Rat.den_intCast, Rat.num_intCast, panel_roundtrip panel,
      rounds_roundtrip now rounds hrounds, metadata_roundtrip metadata hmeta,
      jsonTruthy, hdt]
    rfl
  | some s =>
    have hs := response_roundtrip now s (hsyn s rfl)
    have htruthy : jsonTruthy (responseToDict s) = true := by
      simp [responseToDict, jsonTruthy]
    simp only [transcriptToDict, parseTranscript, jsonGet, String.reduceEq, reduceIte,
      Rat.den_intCast, Rat.num_intCast, panel_roundtrip panel,
      rounds_roundtrip now rounds hrounds, metadata_roundtrip metadata hmeta,
      htruthy, hs, hdt]
    rfl

end MutualDissent

namespace MutualDissent

/-- Claim C9: for every transcript produced by the orchestrator
(`transcriptValid` captures exactly the shapes the program constructs),
serializing it (`save_transcript` / `to_dict`), deserializing it back
(`_parse_transcript_file`), and serializing again yields an identical
JSON document modulo key ordering — here the loader in fact reconstructs
the transcript exactly, so the re-serialization is equal outright; in
particular experiment metadata stored under `metadata.experiment`
round-trips unchanged through a save followed by a load. -/
theorem claim_C9 (now : PyDateTime) (t : DebateTranscript) (hv : transcriptValid t) :
    parseTranscript now (transcriptToDict t) = some t ∧
    (∀ t2, parseTranscript now (transcriptToDict t) = some t2 →
      transcriptToDict t2 = transcriptToDict t) ∧
    loadTranscript now t.transcript_id [saveTranscript t] = .ok (some t) := by
  have h := transcript_roundtrip now t hv
  refine ⟨h, ?_, ?_⟩
  · intro t2 h2
    rw [h] at h2
    obtain rfl := Option.some.inj h2
    rfl
  · have hfull : storedFullId (saveTranscript t) = t.transcript_id := by
      simp [storedFullId, saveTranscript, transcriptToDict, jsonGet, String.reduceEq,
        reduceIte]
    have hself : ∀ s : String, pyStartsWith s s = true := by
      intro s
      simp [pyStartsWith, List.take_length]
    have hp1 : pyStartsWith (saveTranscript t).shortName (pyTakeStr t.transcript_id 8) = true := by
      have hsn : (saveTranscript t).shortName = pyTakeStr t.transcript_id 8 := rfl
      rw [hsn]
      exact hself _
    have hp2 : pyStartsWith (storedFullId (saveTranscript t)) t.transcript_id = true := by
      rw [hfull]
      exact hself _
    unfold loadTranscript findTranscriptFiles
    simp only [List.filter_cons, List.filter_nil, hp1, hp2, Bool.and_self, reduceIte]
    have hdoc : (saveTranscript t).doc = transcriptToDict t := rfl
    rw [hdoc, h]

/-- Witness for C9: the round-trip applied to the concrete stored
transcript, with validity discharged by `simp`/`decide`. -/
theorem claim_C9_witness :
    transcriptValid exTranscript ∧
    parseTranscript ⟨2020, 1, 1, 0, 0, 0, 0⟩ (transcriptToDict exTranscript) =
      some exTranscript :=
  ⟨by simp [transcriptValid, exTranscript, exResponse, responseValid, metaEntryValid,
      PyDateTime.valid],
   (claim_C9 ⟨2020, 1, 1, 0, 0, 0, 0⟩ exTranscript
     (by simp [transcriptValid, exTranscript, exResponse, responseValid, metaEntryValid,
        PyDateTime.valid])).1⟩

end MutualDissent

namespace MutualDissent

/-- Role stamping does not change which alias a response carries. -/
theorem stampRole_aliases (role : String) (l : List ModelResponse) :
    (stampRole role l).map (fun r => r.model_alias) = l.map (fun r => r.model_alias) := by
  simp [stampRole, List.map_map]

/-- The initial-round requests carry the panel aliases in panel order. -/
theorem initialRequests_aliases (query : String) (pa : List String)
    (pctx : Option (List (String × String))) :
    (initialRequests query pa pctx).map (fun req => req.model_alias) = pa := by
  simp only [initialRequests, List.map_map]
  calc pa.map ((fun req => req.model_alias) ∘ fun aliasName =>
        ({ alias_or_id := aliasName, prompt := injectContext (format_initial query) aliasName pctx,
           model_alias := aliasName, round_number := 0 } : Request))
      = pa.map id := List.map_congr_left fun a _ => rfl
    _ = pa := List.map_id pa

/-- The reflection-round requests carry the panel aliases in panel
order. -/
theorem reflectionRequests_aliases (query : String) (pa : List String)
    (prev : List ModelResponse) (rn : Int) (pctx : Option (List (String × String))) :
    (reflectionRequests query pa prev rn pctx).map (fun req => req.model_alias) = pa := by
  simp only [reflectionRequests, List.map_map]
  calc pa.map ((fun req => req.model_alias) ∘ fun aliasName =>
        ({ alias_or_id := aliasName,
           prompt := injectContext
             (format_reflection query (reflectionOwnText prev aliasName) (reflectionOthers prev aliasName))
             aliasName pctx,
           model_alias := aliasName, round_number := rn } : Request))
      = pa.map id := List.map_congr_left fun a _ => rfl
    _ = pa := List.map_id pa

/-- When every dispatch returns a response carrying the request's alias,
the parallel fan-out returns one response per request, aliases in
request order (spec-modelled router contract; the in-tree
`Provider.complete_parallel` gathers one task per request in order). -/
theorem completeParallel_ok (c : Dispatch)
    (hc : ∀ req, ∃ resp, c req = .ok resp ∧ resp.model_alias = req.model_alias) :
    ∀ reqs : List Request, ∃ l, completeParallel c reqs = .ok l ∧
      l.map (fun r => r.model_alias) = reqs.map (fun req => req.model_alias) := by
  intro reqs
  induction reqs with
  | nil => exact ⟨[], rfl, rfl⟩
  | cons req rest IH =>
    obtain ⟨resp, hresp, halias⟩ := hc req
    obtain ⟨l, hl, hmap⟩ := IH
    refine ⟨resp :: l, ?_, ?_⟩
    · unfold completeParallel at hl ⊢
      rw [List.mapM_cons, hresp, hl]
      rfl
    · simp [hmap, halias]

/-- When every dispatch returns a response, the scoring step completes
without raising. -/
theorem scoringStep_ok (c : Dispatch)
    (hc : ∀ req, ∃ resp, c req = .ok resp ∧ resp.model_alias = req.model_alias)
    (q sa : String) (gt : Option String) (syn : ModelResponse) :
    ∃ p, scoringStep c q sa gt syn = .ok p := by
  unfold scoringStep
  split
  · exact ⟨_, rfl⟩
  · split
    · exact ⟨_, rfl⟩
    · rename_i g2 heq2
      obtain ⟨j, hj, _⟩ := hc { alias_or_id := sa, prompt := format_scoring q g2 syn.content,
                                model_alias := sa, round_number := -2 }
      rw [hj]
      exact ⟨_, rfl⟩

/-- The first `n + 1` integers are `0` followed by `1 + i` for the first
`n` integers. -/
theorem range_int_succ (start : Int) (n : Nat) :
    (List.range (n + 1)).map (fun i : Nat => start + (i : Int)) =
      start :: (List.range n).map (fun i : Nat => (start + 1) + (i : Int)) := by
  rw [List.range_succ_eq_map]
  simp only [List.map_cons, List.map_map, Nat.cast_zero, add_zero]
  refine congrArg (List.cons start) ?_
  apply List.map_congr_left
  intro a _
  simp only [Function.comp_apply]
  push_cast
  ring



/-- The reflection loop: with an always-responding dispatch it yields one
round per iteration, numbered consecutively from `start`, all typed
`reflection`, responses in panel order. -/
theorem runReflections_ok (c : Dispatch)
    (hc : ∀ req, ∃ resp, c req = .ok resp ∧ resp.model_alias = req.model_alias)
    (query : String) (pa : List String) (pctx : Option (List (String × String))) :
    ∀ (fuel : Nat) (start : Int) (prev : List ModelResponse),
      ∃ rds, runReflections c query pa pctx prev start fuel = .ok rds ∧
        rds.length = fuel ∧
        rds.map (fun rd => rd.round_number) =
          (List.range fuel).map (fun i : Nat => start + (i : Int)) ∧
        ∀ rd ∈ rds, rd.round_type = "reflection" ∧
          rd.responses.map (fun r => r.model_alias) = pa := by
  intro fuel
  induction fuel with
  | zero =>
    intro start prev
    exact ⟨[], rfl, rfl, rfl, by simp⟩
  | succ n IH =>
    intro start prev
    obtain ⟨resp, hresp, halias⟩ :=
      completeParallel_ok c hc (reflectionRequests query pa prev start pctx)
    obtain ⟨rds, hrds, hlen, hnums, hprops⟩ := IH (start + 1) (stampRole "reflection" resp)
    refine ⟨⟨start, "reflection", stampRole "reflection" resp⟩ :: rds, ?_, by simp [hlen], ?_, ?_⟩
    · simp only [runReflections, hresp, hrds]
    · simp only [List.map_cons, hnums, range_int_succ]
    · intro rd hrd
      rcases List.mem_cons.mp hrd with rfl | hmem
      · refine ⟨rfl, ?_⟩
        rw [stampRole_aliases, halias, reflectionRequests_aliases]
      · exact hprops rd hmem

/-- The replay reflection loop behaves like the fresh-debate loop. -/
theorem replayReflections_ok (c : Dispatch)
    (hc : ∀ req, ∃ resp, c req = .ok resp ∧ resp.model_alias = req.model_alias)
    (query : String) (pa : List String) (pctx : Option (List (String × String))) :
    ∀ (fuel : Nat) (start : Int) (prev : List ModelResponse),
      ∃ rds, replayReflections c query pa pctx prev start fuel = .ok rds ∧
        rds.length = fuel ∧
        rds.map (fun rd => rd.round_number) =
          (List.range fuel).map (fun i : Nat => start + (i : Int)) ∧
        ∀ rd ∈ rds, rd.round_type = "reflection" ∧
          rd.responses.map (fun r => r.model_alias) = pa := by
  intro fuel
  induction fuel with
  | zero =>
    intro start prev
    exact ⟨[], rfl, rfl, rfl, by simp⟩
  | succ n IH =>
    intro start prev
    obtain ⟨resp, hresp, halias⟩ :=
      completeParallel_ok c hc (reflectionRequests query pa prev start pctx)
    obtain ⟨rds, hrds, hlen, hnums, hprops⟩ := IH (start + 1) (stampRole "reflection" resp)
    refine ⟨⟨start, "reflection", stampRole "reflection" resp⟩ :: rds, ?_, by simp [hlen], ?_, ?_⟩
    · simp only [replayReflections, hresp, hrds]
    · simp only [List.map_cons, hnums, range_int_succ]
    · intro rd hrd
      rcases List.mem_cons.mp hrd with rfl | hmem
      · refine ⟨rfl, ?_⟩
        rw [stampRole_aliases, halias, reflectionRequests_aliases]
      · exact hprops rd hmem

/-- `run_debate` with an always-responding dispatch: the resulting
transcript has the resolved round budget as `max_rounds`, one initial
round followed by that many reflection rounds numbered `0, 1, …`, and
responses in panel order in every round. -/
theorem runDebate_ok (c : Dispatch) (pricing : String → Option ModelPricing)
    (query : String) (config : Config) (panel : Option (List String))
    (synthesizer : Option String) (rounds : Option Int) (gt : Option String)
    (pctx : Option (List (String × String))) (tid : String) (created : PyDateTime)
    (version : String)
    (hc : ∀ req, ∃ resp, c req = .ok resp ∧ resp.model_alias = req.model_alias) :
    ∃ t, runDebate c pricing query config panel synthesizer rounds gt pctx
        tid created version = .ok t ∧
      t.max_rounds = resolvedRounds config rounds ∧
      t.rounds.length = (resolvedRounds config rounds).toNat + 1 ∧
      t.rounds.map (fun rd => rd.round_number) =
        (List.range ((resolvedRounds config rounds).toNat + 1)).map
          (fun i : Nat => (i : Int)) ∧
      (t.rounds.map fun rd => rd.round_type) =
        "initial" :: List.replicate (resolvedRounds config rounds).toNat "reflection" ∧
      ∀ rd ∈ t.rounds, rd.responses.map (fun r => r.model_alias) =
        resolvedPanel config panel := by
  obtain ⟨initResp, hinit, hinitAlias⟩ :=
    completeParallel_ok c hc (initialRequests query (resolvedPanel config panel) pctx)
  obtain ⟨reflRounds, hrefl, hlen, hnums, hprops⟩ :=
    runReflections_ok c hc query (resolvedPanel config panel) pctx
      (resolvedRounds config rounds).toNat 1 (stampRole "initial" initResp)
  obtain ⟨sr, hsr, _⟩ := hc
    { alias_or_id := resolvedSynth config synthesizer,
      prompt := buildSynthesisPrompt query
        (⟨0, "initial", stampRole "initial" initResp⟩ :: reflRounds),
      model_alias := resolvedSynth config synthesizer, round_number := -1 }
  obtain ⟨p, hp⟩ := scoringStep_ok c hc query (resolvedSynth config synthesizer) gt
    { sr with role := "synthesis" }
  obtain ⟨ps, pm⟩ := p
  simp only [runDebate, hinit, hrefl, hsr, hp]
  refine ⟨_, rfl, rfl, ?_, ?_, ?_, ?_⟩
  · show (DebateRound.mk 0 "initial" (stampRole "initial" initResp) :: reflRounds).length = _
    simp [hlen]
  · show (DebateRound.mk 0 "initial" (stampRole "initial" initResp) :: reflRounds).map
      (fun rd => rd.round_number) = _
    have htarget : (List.range ((resolvedRounds config rounds).toNat + 1)).map
        (fun i : Nat => (i : Int)) =
        (0 : Int) :: (List.range (resolvedRounds config rounds).toNat).map
          (fun i : Nat => (1 : Int) + (i : Int)) := by
      calc (List.range ((resolvedRounds config rounds).toNat + 1)).map
            (fun i : Nat => (i : Int))
          = (List.range ((resolvedRounds config rounds).toNat + 1)).map
            (fun i : Nat => (0 : Int) + (i : Int)) :=
            List.map_congr_left fun a _ => by ring
        _ = (0 : Int) :: (List.range (resolvedRounds config rounds).toNat).map
            (fun i : Nat => ((0 : Int) + 1) + (i : Int)) := range_int_succ 0 _
        _ = (0 : Int) :: (List.range (resolvedRounds config rounds).toNat).map
            (fun i : Nat => (1 : Int) + (i : Int)) := by
            refine congrArg _ (List.map_congr_left fun a _ => by ring)
    rw [htarget]
    simp only [List.map_cons]
    exact congrArg _ hnums
  · show (DebateRound.mk 0 "initial" (stampRole "initial" initResp) :: reflRounds).map
      (fun rd => rd.round_type) = _
    simp only [List.map_cons]
    refine congrArg _ ?_
    have hmem : ∀ x ∈ reflRounds.map (fun rd => rd.round_type), x = "reflection" := by
      intro x hx
      obtain ⟨rd, hrd, rfl⟩ := List.mem_map.mp hx
      exact (hprops rd hrd).1
    have := List.eq_replicate_of_mem hmem
    rwa [List.length_map, hlen] at this
  · intro rd hrd
    rcases List.mem_cons.mp hrd with rfl | hmem
    · show (stampRole "initial" initResp).map (fun r => r.model_alias) = _
      rw [stampRole_aliases, hinitAlias, initialRequests_aliases]
    · exact (hprops rd hmem).2


/-- A dispatch response echoing the request, used in concrete scenarios. -/
def respondTo (req : Request) : ModelResponse :=
  { model_id := req.alias_or_id, model_alias := req.model_alias,
    round_number := req.round_number, content := "ok",
    timestamp := ⟨2026, 2, 21, 0, 0, 0, 0⟩, token_count := none, input_tokens := none,
    output_tokens := none, latency_ms := none, error := none, role := "",
    routing := none, analysis := [] }

/-- A dispatch oracle that answers every request. -/
def okDispatch : Dispatch := fun req => .ok (respondTo req)

/-- A concrete configuration, used in concrete scenarios. -/
def exConfig : Config :=
  { default_panel := ["cfg"], default_synthesizer := "syn", default_rounds := 2,
    routing := [], providers := [] }

/-- `run_replay` with a nonnegative additional-round count and an
always-responding dispatch: the result keeps the source rounds as an
unchanged prefix and appends reflection rounds numbered from
`len(source.rounds)`. -/
theorem runReplay_ok (c : Dispatch) (pricing : String → Option ModelPricing)
    (source : DebateTranscript) (synthesizer : Option String) (M : Int)
    (gt : Option String) (pctx : Option (List (String × String)))
    (tid : String) (created : PyDateTime) (version : String)
    (hc : ∀ req, ∃ resp, c req = .ok resp ∧ resp.model_alias = req.model_alias)
    (hM : 0 ≤ M) (hsrc : source.rounds ≠ [] ∨ M = 0) :
    ∃ t, runReplay c pricing source synthesizer M gt pctx tid created version = .ok t ∧
      t.rounds.take source.rounds.length = source.rounds ∧
      t.rounds.length = source.rounds.length + M.toNat ∧
      (t.rounds.drop source.rounds.length).map (fun rd => rd.round_number) =
        (List.range M.toNat).map (fun i : Nat => (source.rounds.length : Int) + (i : Int)) ∧
      ∀ rd ∈ t.rounds.drop source.rounds.length, rd.round_type = "reflection" ∧
        rd.responses.map (fun r => r.model_alias) = source.panel := by
  by_cases hpos : 0 < M
  · have hne : source.rounds ≠ [] := by
      rcases hsrc with h | h
      · exact h
      · omega
    cases hl : source.rounds.getLast? with
    | none => exact absurd (List.getLast?_eq_none_iff.mp hl) hne
    | some lastRound =>
      obtain ⟨rds, hrds, hlen, hnums, hprops⟩ :=
        replayReflections_ok c hc source.query source.panel pctx M.toNat
          (source.rounds.length : Int) lastRound.responses
      obtain ⟨sr, hsr, _⟩ := hc
        { alias_or_id := replaySynth source synthesizer,
          prompt := buildSynthesisPrompt source.query (source.rounds ++ rds),
          model_alias := replaySynth source synthesizer, round_number := -1 }
      obtain ⟨p, hp⟩ := scoringStep_ok c hc source.query (replaySynth source synthesizer) gt
        { sr with role := "synthesis" }
      obtain ⟨ps, pm⟩ := p
      simp only [runReplay, if_neg (not_lt.mpr hM), if_pos hpos, hl, hrds, hsr, hp]
      refine ⟨_, rfl, ?_, ?_, ?_, ?_⟩
      · show (source.rounds ++ rds).take source.rounds.length = source.rounds
        exact List.take_left source.rounds rds
      · show (source.rounds ++ rds).length = source.rounds.length + M.toNat
        simp [hlen]
      · show ((source.rounds ++ rds).drop source.rounds.length).map
          (fun rd => rd.round_number) = _
        rw [List.drop_left]
        exact hnums
      · show ∀ rd ∈ (source.rounds ++ rds).drop source.rounds.length, _
        rw [List.drop_left]
        exact hprops
  · have h0 : M = 0 := le_antisymm (not_lt.mp hpos) hM
    subst h0
    obtain ⟨sr, hsr, _⟩ := hc
      { alias_or_id := replaySynth source synthesizer,
        prompt := buildSynthesisPrompt source.query (source.rounds ++ []),
        model_alias := replaySynth source synthesizer, round_number := -1 }
    obtain ⟨p, hp⟩ := scoringStep_ok c hc source.query (replaySynth source synthesizer) gt
      { sr with role := "synthesis" }
    obtain ⟨ps, pm⟩ := p
    simp only [runReplay, if_neg (not_lt.mpr hM), if_neg (lt_irrefl (0 : Int)), hsr, hp]
    refine ⟨_, rfl, ?_, ?_, ?_, ?_⟩
    · show (source.rounds ++ ([] : List DebateRound)).take source.rounds.length = source.rounds
      exact List.take_left source.rounds []
    · show (source.rounds ++ ([] : List DebateRound)).length = source.rounds.length + (0 : Int).toNat
      simp
    · show ((source.rounds ++ ([] : List DebateRound)).drop source.rounds.length).map
        (fun rd => rd.round_number) = _
      rw [List.drop_left]
      rfl
    · show ∀ rd ∈ (source.rounds ++ ([] : List DebateRound)).drop source.rounds.length, _
      rw [List.drop_left]
      simp


/-- Claim C1: for every fresh debate via `run_debate` with a nonempty
panel and a reflection round count `N` between 1 and 3, when every
dispatched call returns a response, the transcript has exactly `N + 1`
rounds numbered `0, 1, …, N` in order, round 0 typed `initial` and
rounds `1..N` typed `reflection`, and every round's responses carry the
panel aliases in panel order (hence exactly `P` responses). -/
theorem claim_C1 (c : Dispatch) (pricing : String → Option ModelPricing)
    (query : String) (config : Config) (panel : List String)
    (synthesizer : Option String) (N : Int) (gt : Option String)
    (pctx : Option (List (String × String))) (tid : String) (created : PyDateTime)
    (version : String)
    (hpanel : panel ≠ []) (hN1 : 1 ≤ N) (hN3 : N ≤ 3)
    (hc : ∀ req, ∃ resp, c req = .ok resp ∧ resp.model_alias = req.model_alias) :
    ∃ t, runDebate c pricing query config (some panel) synthesizer (some N) gt pctx
        tid created version = .ok t ∧
      t.rounds.length = N.toNat + 1 ∧
      t.rounds.map (fun rd => rd.round_number) =
        (List.range (N.toNat + 1)).map (fun i : Nat => (i : Int)) ∧
      (t.rounds.map fun rd => rd.round_type) =
        "initial" :: List.replicate N.toNat "reflection" ∧
      ∀ rd ∈ t.rounds, rd.responses.map (fun r => r.model_alias) = panel := by
  have hpa : resolvedPanel config (some panel) = panel := by
    simp [resolvedPanel, hpanel]
  have hnr : resolvedRounds config (some N) = N := by
    simp only [resolvedRounds, pyMinInt]
    rw [if_neg (by omega : ¬ N = 0), if_neg (by omega : ¬ (3 : Int) < N)]
  obtain ⟨t, ht, _, hlen, hnums, htypes, hresp⟩ :=
    runDebate_ok c pricing query config (some panel) synthesizer (some N) gt pctx
      tid created version hc
  rw [hnr] at hlen hnums htypes
  rw [hpa] at hresp
  exact ⟨t, ht, hlen, hnums, htypes, hresp⟩

/-- Claim C1 witness: a concrete two-model panel with one reflection
round. -/
theorem claim_C1_witness :
    ∃ t, runDebate okDispatch (fun _ => none) "q" exConfig (some ["A", "B"]) none
        (some 1) none none "id" ⟨2026, 2, 21, 0, 0, 0, 0⟩ "0.1" = .ok t ∧
      t.rounds.length = (1 : Int).toNat + 1 ∧
      t.rounds.map (fun rd => rd.round_number) =
        (List.range ((1 : Int).toNat + 1)).map (fun i : Nat => (i : Int)) ∧
      (t.rounds.map fun rd => rd.round_type) =
        "initial" :: List.replicate (1 : Int).toNat "reflection" ∧
      ∀ rd ∈ t.rounds, rd.responses.map (fun r => r.model_alias) = ["A", "B"] :=
  claim_C1 okDispatch (fun _ => none) "q" exConfig ["A", "B"] none 1 none none "id"
    ⟨2026, 2, 21, 0, 0, 0, 0⟩ "0.1" (by decide) (by decide) (by decide)
    (fun req => ⟨respondTo req, rfl, rfl⟩)

/-- Claim C10: `run_debate` never validates `rounds` against `[1, 3]` —
`rounds = 0` is falsy and silently replaced by the configured default,
a value above 3 is silently clamped to 3, and a negative value is
accepted without error, yielding a transcript whose only round is the
initial round and whose `max_rounds` is the negative value itself. -/
theorem claim_C10 (c : Dispatch) (pricing : String → Option ModelPricing)
    (query : String) (config : Config) (panel : Option (List String))
    (synthesizer : Option String) (gt : Option String)
    (pctx : Option (List (String × String))) (tid : String) (created : PyDateTime)
    (version : String)
    (hc : ∀ req, ∃ resp, c req = .ok resp ∧ resp.model_alias = req.model_alias) :
    resolvedRounds config (some 0) = resolvedRounds config none ∧
    (∀ r : Int, 3 < r → resolvedRounds config (some r) = 3) ∧
    ∀ r : Int, r < 0 →
      ∃ t, runDebate c pricing query config panel synthesizer (some r) gt pctx
          tid created version = .ok t ∧
        t.max_rounds = r ∧ t.rounds.length = 1 ∧
        (t.rounds.map fun rd => rd.round_type) = ["initial"] := by
  refine ⟨rfl, ?_, ?_⟩
  · intro r hr
    simp only [resolvedRounds, pyMinInt]
    rw [if_neg (by omega : ¬ r = 0), if_pos hr]
  · intro r hr
    have hnr : resolvedRounds config (some r) = r := by
      simp only [resolvedRounds, pyMinInt]
      rw [if_neg (by omega : ¬ r = 0), if_neg (by omega : ¬ (3 : Int) < r)]
    obtain ⟨t, ht, hmax, hlen, _, htypes, _⟩ :=
      runDebate_ok c pricing query config panel synthesizer (some r) gt pctx
        tid created version hc
    rw [hnr] at hmax hlen htypes
    rw [Int.toNat_of_nonpos (le_of_lt hr)] at hlen htypes
    exact ⟨t, ht, hmax, hlen, htypes⟩

/-- Claim C10 witness: `rounds = -2` is accepted, `max_rounds = -2`, and
only the initial round runs. -/
theorem claim_C10_witness :
    ∃ t, runDebate okDispatch (fun _ => none) "q" exConfig none none (some (-2)) none
        none "id" ⟨2026, 2, 21, 0, 0, 0, 0⟩ "0.1" = .ok t ∧
      t.max_rounds = -2 ∧ t.rounds.length = 1 ∧
      (t.rounds.map fun rd => rd.round_type) = ["initial"] :=
  (claim_C10 okDispatch (fun _ => none) "q" exConfig none none none none "id"
      ⟨2026, 2, 21, 0, 0, 0, 0⟩ "0.1"
      (fun req => ⟨respondTo req, rfl, rfl⟩)).2.2 (-2) (by decide)


/-- Claim C2 counterexample: a cancellation observed during the first
reflection round makes `run_debate` itself propagate the cancellation
(`CancelledError`, here `.error ()`) instead of returning a partial
transcript. -/
theorem claim_C2_counterexample :
    runDebate (fun req => if req.round_number = 1 then .error () else .ok (respondTo req))
      (fun _ => none) "q" exConfig (some ["A", "B"]) none (some 2) none none "id"
      ⟨2026, 2, 21, 0, 0, 0, 0⟩ "0.1" = .error () := by
  rfl

/-- Claim C2 as amended: `run_debate` does not catch a cancellation — it
propagates out (shown for any dispatch that cancels the initial round of
a nonempty panel); the partial transcript is built one layer up, by the
web page's `_handle_abort`, whose transcript carries exactly the rounds
already delivered before the abort, no synthesis, and the
`aborted = true` metadata marker. -/
theorem claim_C2_amended (c : Dispatch) (pricing : String → Option ModelPricing)
    (query : String) (config : Config) (panel : Option (List String))
    (synthesizer : Option String) (rounds : Option Int) (gt : Option String)
    (pctx : Option (List (String × String))) (tid : String) (created : PyDateTime)
    (version : String) (qt : String) (sp : List String) (sv : String) (nr : Int)
    (completed : List DebateRound) (tid2 : String) (created2 : PyDateTime)
    (hpanel : resolvedPanel config panel ≠ [])
    (hcancel : ∀ req, req.round_number = 0 → c req = .error ()) :
    runDebate c pricing query config panel synthesizer rounds gt pctx
        tid created version = .error () ∧
    (handleAbort qt sp sv nr completed tid2 created2).rounds = completed ∧
    (handleAbort qt sp sv nr completed tid2 created2).synthesis = none ∧
    (handleAbort qt sp sv nr completed tid2 created2).metadata =
      [("aborted", .mjson (.bool true))] := by
  refine ⟨?_, rfl, rfl, rfl⟩
  cases hpa : resolvedPanel config panel with
  | nil => exact absurd hpa hpanel
  | cons a as =>
    have hfirst : c
        { alias_or_id := a,
          prompt := injectContext (format_initial query) a pctx,
          model_alias := a, round_number := 0 } = .error () := hcancel _ rfl
    have hinitErr : completeParallel c (initialRequests query (a :: as) pctx) =
        .error () := by
      simp only [completeParallel, initialRequests, List.map_cons, List.mapM_cons, hfirst]
      rfl
    simp only [runDebate, hpa, hinitErr]

/-- Claim C2 amended witness: a dispatch that cancels everything makes a
concrete `run_debate` call propagate the cancellation, and a concrete
`_handle_abort` transcript keeps exactly the completed rounds with no
synthesis and the aborted marker. -/
theorem claim_C2_amended_witness :
    runDebate (fun _ => .error ()) (fun _ => none) "q" exConfig (some ["A"]) none
        (some 1) none none "id" ⟨2026, 2, 21, 0, 0, 0, 0⟩ "0.1" = .error () ∧
    (handleAbort "q" ["A"] "syn" 1 [⟨0, "initial", []⟩] "id3"
        ⟨2026, 2, 21, 0, 0, 0, 0⟩).rounds = [⟨0, "initial", []⟩] ∧
    (handleAbort "q" ["A"] "syn" 1 [⟨0, "initial", []⟩] "id3"
        ⟨2026, 2, 21, 0, 0, 0, 0⟩).synthesis = none ∧
    (handleAbort "q" ["A"] "syn" 1 [⟨0, "initial", []⟩] "id3"
        ⟨2026, 2, 21, 0, 0, 0, 0⟩).metadata = [("aborted", .mjson (.bool true))] :=
  claim_C2_amended (fun _ => .error ()) (fun _ => none) "q" exConfig (some ["A"]) none
    (some 1) none none "id" ⟨2026, 2, 21, 0, 0, 0, 0⟩ "0.1" "q" ["A"] "syn" 1
    [⟨0, "initial", []⟩] "id3" ⟨2026, 2, 21, 0, 0, 0, 0⟩ (by decide)
    (fun _ _ => rfl)

/-- Claim C5: `run_replay` rejects a negative additional-round count with
`BadArguments`; for `M ≥ 0` (with a nonempty source unless `M = 0`) the
produced transcript starts with the source rounds element-wise unchanged
— the pure embedding returns the source rounds list itself as the prefix
— and appends exactly `M` reflection rounds numbered
`len(source.rounds), len(source.rounds)+1, …`. -/
theorem claim_C5 (c : Dispatch) (pricing : String → Option ModelPricing)
    (source : DebateTranscript) (synthesizer : Option String) (M : Int)
    (gt : Option String) (pctx : Option (List (String × String)))
    (tid : String) (created : PyDateTime) (version : String)
    (hc : ∀ req, ∃ resp, c req = .ok resp ∧ resp.model_alias = req.model_alias)
    (hM : 0 ≤ M) (hsrc : source.rounds ≠ [] ∨ M = 0) :
    (∀ M2 : Int, M2 < 0 →
      runReplay c pricing source synthesizer M2 gt pctx tid created version =
        .error (.badArguments ("additional_rounds must be >= 0, got " ++ toString M2))) ∧
    ∃ t, runReplay c pricing source synthesizer M gt pctx tid created version = .ok t ∧
      t.rounds.take source.rounds.length = source.rounds ∧
      t.rounds.length = source.rounds.length + M.toNat ∧
      (t.rounds.drop source.rounds.length).map (fun rd => rd.round_number) =
        (List.range M.toNat).map (fun i : Nat => (source.rounds.length : Int) + (i : Int)) ∧
      ∀ rd ∈ t.rounds.drop source.rounds.length, rd.round_type = "reflection" := by
  constructor
  · intro M2 hM2
    unfold runReplay
    rw [if_pos hM2]
  · obtain ⟨t, ht, htake, hlen, hnums, hprops⟩ :=
      runReplay_ok c pricing source synthesizer M gt pctx tid created version hc hM hsrc
    exact ⟨t, ht, htake, hlen, hnums, fun rd hrd => (hprops rd hrd).1⟩

/-- Claim C5 witness: replaying a concrete one-round transcript with one
additional round, and rejecting `-1` additional rounds. -/
theorem claim_C5_witness :
    runReplay okDispatch (fun _ => none) exTranscript none (-1) none none "id2"
        ⟨2026, 2, 21, 0, 0, 0, 0⟩ "0.1" =
      .error (.badArguments ("additional_rounds must be >= 0, got " ++
        toString (-1 : Int))) ∧
    ∃ t, runReplay okDispatch (fun _ => none) exTranscript none 1 none none "id2"
        ⟨2026, 2, 21, 0, 0, 0, 0⟩ "0.1" = .ok t ∧
      t.rounds.take exTranscript.rounds.length = exTranscript.rounds ∧
      t.rounds.length = exTranscript.rounds.length + (1 : Int).toNat ∧
      (t.rounds.drop exTranscript.rounds.length).map (fun rd => rd.round_number) =
        (List.range (1 : Int).toNat).map
          (fun i : Nat => (exTranscript.rounds.length : Int) + (i : Int)) ∧
      ∀ rd ∈ t.rounds.drop exTranscript.rounds.length, rd.round_type = "reflection" :=
  ⟨(claim_C5 okDispatch (fun _ => none) exTranscript none 1 none none "id2"
      ⟨2026, 2, 21, 0, 0, 0, 0⟩ "0.1" (fun req => ⟨respondTo req, rfl, rfl⟩)
      (by decide) (Or.inl (by simp [exTranscript]))).1 (-1) (by decide),
   (claim_C5 okDispatch (fun _ => none) exTranscript none 1 none none "id2"
      ⟨2026, 2, 21, 0, 0, 0, 0⟩ "0.1" (fun req => ⟨respondTo req, rfl, rfl⟩)
      (by decide) (Or.inl (by simp [exTranscript]))).2⟩

end MutualDissent
